import Mathlib

/-!
Verification of the cost-volume transformer encoder of MAC-VO/S_FlowFormer
against its natural-language specification.

The repository's tensors are embedded shallowly: a tensor is a shape
(`List Nat`, row-major/contiguous layout) together with flat data
(`Nat → ℚ`).  `view`/`reshape` keep the flat data and change the shape
(failing, like torch, when the element counts differ); `permute`
materialises the reindexed data, which is exactly the value semantics a
later `.reshape`/`.contiguous()` observes.  Machine floats are modelled
by exact rationals: every claim below is about shapes, index plumbing,
dot products and scaling, none of which depend on rounding.
-/

namespace FlowFormerSpec

/-- A (row-major, contiguous) tensor: a shape together with flat data. -/
structure Tensor where
  shape : List Nat
  data : Nat → ℚ

namespace Tensor

/-- Row-major flattening of a multi-index against a shape. -/
def flattenIdx : List Nat → List Nat → Nat
  | _ :: ss, i :: is => i * ss.prod + flattenIdx ss is
  | _, _ => 0

/-- Row-major un-flattening of a flat index against a shape. -/
def unflattenIdx : List Nat → Nat → List Nat
  | [], _ => []
  | _ :: ss, n => n / ss.prod :: unflattenIdx ss (n % ss.prod)

/-- Componentwise strict bound of a multi-index by a shape. -/
def IdxLT : List Nat → List Nat → Prop
  | [], [] => True
  | i :: is, s :: ss => i < s ∧ IdxLT is ss
  | _, _ => False

theorem IdxLT.nil : IdxLT [] [] := trivial

theorem IdxLT.cons {i s : Nat} {is ss : List Nat} (h1 : i < s) (h2 : IdxLT is ss) :
    IdxLT (i :: is) (s :: ss) :=
  show i < s ∧ IdxLT is ss from ⟨h1, h2⟩

theorem IdxLT.prod_pos : ∀ {idx s : List Nat}, IdxLT idx s → 0 < s.prod
  | [], [], _ => by simp
  | _ :: is, s :: ss, h => by
      have h2 : 0 < ss.prod := IdxLT.prod_pos h.2
      have h1 : 0 < s := Nat.lt_of_le_of_lt (Nat.zero_le _) h.1
      simpa using Nat.mul_pos h1 h2
  | [], _ :: _, h => h.elim
  | _ :: _, [], h => h.elim

theorem flattenIdx_lt : ∀ {idx s : List Nat}, IdxLT idx s → flattenIdx s idx < s.prod
  | [], [], _ => by simp [flattenIdx]
  | i :: is, s :: ss, h => by
      have ih : flattenIdx ss is < ss.prod := flattenIdx_lt h.2
      have hp : 0 < ss.prod := IdxLT.prod_pos h.2
      have : i * ss.prod + flattenIdx ss is < (i + 1) * ss.prod := by
        calc i * ss.prod + flattenIdx ss is < i * ss.prod + ss.prod := by omega
        _ = (i + 1) * ss.prod := by ring
      calc flattenIdx (s :: ss) (i :: is) = i * ss.prod + flattenIdx ss is := rfl
      _ < (i + 1) * ss.prod := this
      _ ≤ s * ss.prod := Nat.mul_le_mul_right _ h.1
      _ = (s :: ss).prod := by simp
  | [], _ :: _, h => h.elim
  | _ :: _, [], h => h.elim

theorem unflatten_flatten : ∀ {idx s : List Nat}, IdxLT idx s →
    unflattenIdx s (flattenIdx s idx) = idx
  | [], [], _ => rfl
  | i :: is, s :: ss, h => by
      have hp : 0 < ss.prod := IdxLT.prod_pos h.2
      have hlt : flattenIdx ss is < ss.prod := flattenIdx_lt h.2
      have hdiv : (i * ss.prod + flattenIdx ss is) / ss.prod = i := by
        rw [Nat.mul_comm, Nat.mul_add_div hp, Nat.div_eq_of_lt hlt]
        omega
      have hmod : (i * ss.prod + flattenIdx ss is) % ss.prod = flattenIdx ss is := by
        rw [Nat.mul_comm, Nat.mul_add_mod, Nat.mod_eq_of_lt hlt]
      show (i * ss.prod + flattenIdx ss is) / ss.prod
          :: unflattenIdx ss ((i * ss.prod + flattenIdx ss is) % ss.prod) = i :: is
      rw [hdiv, hmod, unflatten_flatten h.2]
  | [], _ :: _, h => h.elim
  | _ :: _, [], h => h.elim

/-- Number of elements. -/
def numel (t : Tensor) : Nat := t.shape.prod

/-- Build a tensor from a shape and a multi-index function. -/
def ofFn (s : List Nat) (f : List Nat → ℚ) : Tensor :=
  ⟨s, fun n => f (unflattenIdx s n)⟩

/-- Value at a multi-index. -/
def entry (t : Tensor) (idx : List Nat) : ℚ := t.data (flattenIdx t.shape idx)

/-- torch `.view` / `.reshape` of a contiguous tensor: same flat data under a
new shape; fails (like torch) when the element counts differ. -/
def reshape (t : Tensor) (s : List Nat) : Option Tensor :=
  if s.prod = t.shape.prod then some ⟨s, t.data⟩ else none

/-- torch `.permute(dims)`: result axis `k` is input axis `dims k`; the data
is materialised in the permuted order (what `.reshape` observes afterwards). -/
def permute (t : Tensor) (dims : List Nat) : Tensor :=
  let newShape := dims.map (fun a => t.shape.getD a 0)
  ⟨newShape, fun n =>
    let nIdx := unflattenIdx newShape n
    let oldIdx := (List.range t.shape.length).map (fun a => nIdx.getD (dims.indexOf a) 0)
    t.data (flattenIdx t.shape oldIdx)⟩

/-- torch `.bmm` on shapes `[B, n, m]` × `[B, m, p]`. -/
def bmm (a b : Tensor) : Option Tensor :=
  match a.shape, b.shape with
  | [ba, n, m], [bb, m2, p] =>
    if ba = bb ∧ m = m2 then
      some (ofFn [ba, n, p] (fun idx =>
        ∑ e ∈ Finset.range m,
          a.entry [idx.getD 0 0, idx.getD 1 0, e] * b.entry [idx.getD 0 0, e, idx.getD 2 0]))
    else none
  | _, _ => none

/-- Pointwise scaling of a tensor by a scalar. -/
def scaleT (c : ℚ) (t : Tensor) : Tensor := ⟨t.shape, fun n => c * t.data n⟩

@[simp] theorem scaleT_shape (c : ℚ) (t : Tensor) : (scaleT c t).shape = t.shape := rfl

@[simp] theorem scaleT_entry (c : ℚ) (t : Tensor) (idx : List Nat) :
    (scaleT c t).entry idx = c * t.entry idx := rfl

@[simp] theorem entry_mk (s : List Nat) (f : Nat → ℚ) (idx : List Nat) :
    (Tensor.mk s f).entry idx = f (flattenIdx s idx) := rfl

theorem ofFn_entry (s : List Nat) (f : List Nat → ℚ) (idx : List Nat) (h : IdxLT idx s) :
    (Tensor.ofFn s f).entry idx = f idx := by
  unfold Tensor.ofFn Tensor.entry
  simp only
  rw [unflatten_flatten h]

theorem flattenIdx3 (s0 s1 s2 a b c : Nat) :
    flattenIdx [s0, s1, s2] [a, b, c] = (a * s1 + b) * s2 + c := by
  simp [flattenIdx]
  ring

theorem flattenIdx4 (s0 s1 s2 s3 a b c d : Nat) :
    flattenIdx [s0, s1, s2, s3] [a, b, c, d] = ((a * s1 + b) * s2 + c) * s3 + d := by
  simp [flattenIdx]
  ring

theorem flattenIdx5 (s0 s1 s2 s3 s4 a b c d e : Nat) :
    flattenIdx [s0, s1, s2, s3, s4] [a, b, c, d, e] =
      (((a * s1 + b) * s2 + c) * s3 + d) * s4 + e := by
  simp [flattenIdx]
  ring

theorem flattenIdx6 (s0 s1 s2 s3 s4 s5 a b c d e f : Nat) :
    flattenIdx [s0, s1, s2, s3, s4, s5] [a, b, c, d, e, f] =
      ((((a * s1 + b) * s2 + c) * s3 + d) * s4 + e) * s5 + f := by
  simp [flattenIdx]
  ring

/-- Entry of a `.permute [0, 2, 1, 3]` (torch `transpose(1, 2)` of a rank-4 tensor). -/
theorem permute0213_entry (t : Tensor) (s0 s1 s2 s3 a b c d : Nat)
    (hs : t.shape = [s0, s1, s2, s3])
    (ha : a < s0) (hb : b < s1) (hc : c < s2) (hd : d < s3) :
    (t.permute [0, 2, 1, 3]).entry [a, c, b, d] = t.entry [a, b, c, d] := by
  unfold Tensor.permute Tensor.entry
  rw [hs]
  show t.data (flattenIdx [s0, s1, s2, s3]
    ((List.range 4).map (fun ax =>
      (unflattenIdx [s0, s2, s1, s3] (flattenIdx [s0, s2, s1, s3] [a, c, b, d])).getD
        ([0, 2, 1, 3].indexOf ax) 0))) = t.data (flattenIdx [s0, s1, s2, s3] [a, b, c, d])
  rw [unflatten_flatten (IdxLT.cons ha (IdxLT.cons hc (IdxLT.cons hb (IdxLT.cons hd IdxLT.nil))))]
  rfl

/-- Entry of a `.permute [0, 2, 1]` (torch `transpose(1, 2)` of a rank-3 tensor). -/
theorem permute021_entry (t : Tensor) (s0 s1 s2 a b c : Nat)
    (hs : t.shape = [s0, s1, s2])
    (ha : a < s0) (hb : b < s1) (hc : c < s2) :
    (t.permute [0, 2, 1]).entry [a, c, b] = t.entry [a, b, c] := by
  unfold Tensor.permute Tensor.entry
  rw [hs]
  show t.data (flattenIdx [s0, s1, s2]
    ((List.range 3).map (fun ax =>
      (unflattenIdx [s0, s2, s1] (flattenIdx [s0, s2, s1] [a, c, b])).getD
        ([0, 2, 1].indexOf ax) 0))) = t.data (flattenIdx [s0, s1, s2] [a, b, c])
  rw [unflatten_flatten (IdxLT.cons ha (IdxLT.cons hc (IdxLT.cons hb IdxLT.nil)))]
  rfl

/-- Entry of a `.permute [0, 1, 3, 4, 2]` of a rank-5 tensor. -/
theorem permute01342_entry (t : Tensor) (s0 s1 s2 s3 s4 a b c d e : Nat)
    (hs : t.shape = [s0, s1, s2, s3, s4])
    (ha : a < s0) (hb : b < s1) (hc : c < s2) (hd : d < s3) (he : e < s4) :
    (t.permute [0, 1, 3, 4, 2]).entry [a, b, d, e, c] = t.entry [a, b, c, d, e] := by
  unfold Tensor.permute Tensor.entry
  rw [hs]
  show t.data (flattenIdx [s0, s1, s2, s3, s4]
    ((List.range 5).map (fun ax =>
      (unflattenIdx [s0, s1, s3, s4, s2] (flattenIdx [s0, s1, s3, s4, s2] [a, b, d, e, c])).getD
        ([0, 1, 3, 4, 2].indexOf ax) 0))) = t.data (flattenIdx [s0, s1, s2, s3, s4] [a, b, c, d, e])
  rw [unflatten_flatten (IdxLT.cons ha (IdxLT.cons hb (IdxLT.cons hd (IdxLT.cons he (IdxLT.cons hc IdxLT.nil)))))]
  rfl

end Tensor

open Tensor

/-! ## MemoryEncoder.corr (src/core/encoder.py, lines 244-270)

Line-by-line translation of the reshape/permute/bmm chain.  `heads` is
`self.cfg.cost_heads_num`; `d = dim // heads` is Python floor division.
A failing `view`/`reshape` (element-count mismatch) yields `none`. -/
def MemoryEncoder.corrBody (heads batch dim ht wd : Nat) (fmap1 fmap2 : Tensor) :
    Option Tensor :=
  let d := dim / heads
  (fmap1.reshape [batch, heads, d, ht, wd]).bind (fun f1v =>
  ((f1v.permute [0, 1, 3, 4, 2]).reshape [batch, heads, ht * wd, d]).bind (fun f1 =>
  (fmap2.reshape [batch, heads, d, ht, wd]).bind (fun f2v =>
  ((f2v.permute [0, 1, 3, 4, 2]).reshape [batch, heads, ht * wd, d]).bind (fun f2 =>
  (f1.reshape [batch * heads, ht * wd, d]).bind (fun f1bmm =>
  (f2.reshape [batch * heads, ht * wd, d]).bind (fun f2bmm =>
  (f1bmm.bmm (f2bmm.permute [0, 2, 1])).bind (fun corr_bmm =>
  (corr_bmm.reshape [batch, heads, ht * wd, ht * wd]).bind (fun c1 =>
  ((c1.permute [0, 2, 1, 3]).reshape [batch * ht * wd, heads, ht, wd]).bind (fun c2 =>
  (c2.reshape [batch, ht * wd, heads, ht * wd]).bind (fun c3 =>
  (c3.permute [0, 2, 1, 3]).reshape [batch, heads, ht, wd, ht, wd]))))))))))

def MemoryEncoder.corr (cost_heads_num : Nat) (fmap1 fmap2 : Tensor) : Option Tensor :=
  match fmap1.shape with
  | [batch, dim, ht, wd] => MemoryEncoder.corrBody cost_heads_num batch dim ht wd fmap1 fmap2
  | _ => none

@[simp] theorem permute_shape (t : Tensor) (dims : List Nat) :
    (t.permute dims).shape = dims.map (fun a => t.shape.getD a 0) := rfl

@[simp] theorem ofFn_shape (s : List Nat) (f : List Nat → ℚ) : (ofFn s f).shape = s := rfl

/-- Reduction helper: a succeeding `.reshape` under `.bind`. -/
theorem reshape_bind {α : Type} {t : Tensor} {s : List Nat} {f : Tensor → Option α}
    (hprod : s.prod = t.shape.prod) :
    (t.reshape s).bind f = f ⟨s, t.data⟩ := by
  rw [Tensor.reshape, if_pos hprod, Option.some_bind]

/-- Reduction helper: a succeeding `.reshape` in tail position. -/
theorem reshape_eq_some {t : Tensor} {s : List Nat}
    (hprod : s.prod = t.shape.prod) :
    t.reshape s = some ⟨s, t.data⟩ := by
  rw [Tensor.reshape, if_pos hprod]

/-- Reduction helper: a succeeding `.bmm` under `.bind`. -/
theorem bmm_bind (p : Nat) {α : Type} {a b : Tensor} {ba n m : Nat} {f : Tensor → Option α}
    (hA : a.shape = [ba, n, m]) (hB : b.shape = [ba, m, p]) :
    (a.bmm b).bind f = f (ofFn [ba, n, p] (fun idx =>
      ∑ e ∈ Finset.range m,
        a.entry [idx.getD 0 0, idx.getD 1 0, e] * b.entry [idx.getD 0 0, e, idx.getD 2 0])) := by
  rw [Tensor.bmm]
  rw [hA, hB]
  simp

/-- Raster-scan index bound: `i * wd + j < ht * wd` when `i < ht` and `j < wd`. -/
theorem mul_add_lt {i ht j wd : Nat} (hi : i < ht) (hj : j < wd) : i * wd + j < ht * wd := by
  have e1 : (i + 1) * wd = i * wd + wd := by ring
  have h1 : i * wd + j < (i + 1) * wd := by omega
  exact Nat.lt_of_lt_of_le h1 (Nat.mul_le_mul_right wd hi)

/-- Entry of the tail of the `corr` pipeline (reshape/permute steps after the
batched matrix product) in terms of the raw `bmm` output. -/
theorem corr_outer_entry (B Hd ht wd : Nat) (F : List Nat → ℚ) (b h i j k l : Nat)
    (hbb : b < B) (hbh : h < Hd) (hbi : i < ht) (hbj : j < wd) (hbk : k < ht) (hbl : l < wd) :
    (Tensor.mk [B, Hd, ht, wd, ht, wd]
      ((Tensor.mk [B, ht * wd, Hd, ht * wd]
        (Tensor.mk [B * ht * wd, Hd, ht, wd]
          ((Tensor.mk [B, Hd, ht * wd, ht * wd]
            (ofFn [B * Hd, ht * wd, ht * wd] F).data).permute [0, 2, 1, 3]).data).data).permute
        [0, 2, 1, 3]).data).entry [b, h, i, j, k, l]
      = F [b * Hd + h, i * wd + j, k * wd + l] := by
  have hp : i * wd + j < ht * wd := mul_add_lt hbi hbj
  have hq : k * wd + l < ht * wd := mul_add_lt hbk hbl
  have hβ : b * Hd + h < B * Hd := mul_add_lt hbb hbh
  calc (Tensor.mk [B, Hd, ht, wd, ht, wd]
      ((Tensor.mk [B, ht * wd, Hd, ht * wd]
        (Tensor.mk [B * ht * wd, Hd, ht, wd]
          ((Tensor.mk [B, Hd, ht * wd, ht * wd]
            (ofFn [B * Hd, ht * wd, ht * wd] F).data).permute [0, 2, 1, 3]).data).data).permute [0, 2, 1, 3]).data).entry [b, h, i, j, k, l]
      = ((Tensor.mk [B, ht * wd, Hd, ht * wd]
          (Tensor.mk [B * ht * wd, Hd, ht, wd]
            ((Tensor.mk [B, Hd, ht * wd, ht * wd]
              (ofFn [B * Hd, ht * wd, ht * wd] F).data).permute [0, 2, 1, 3]).data).data).permute
          [0, 2, 1, 3]).entry [b, h, i * wd + j, k * wd + l] := by
        show ((Tensor.mk [B, ht * wd, Hd, ht * wd]
          (Tensor.mk [B * ht * wd, Hd, ht, wd]
            ((Tensor.mk [B, Hd, ht * wd, ht * wd]
              (ofFn [B * Hd, ht * wd, ht * wd] F).data).permute [0, 2, 1, 3]).data).data).permute
          [0, 2, 1, 3]).data (flattenIdx [B, Hd, ht, wd, ht, wd] [b, h, i, j, k, l])
          = ((Tensor.mk [B, ht * wd, Hd, ht * wd]
          (Tensor.mk [B * ht * wd, Hd, ht, wd]
            ((Tensor.mk [B, Hd, ht * wd, ht * wd]
              (ofFn [B * Hd, ht * wd, ht * wd] F).data).permute [0, 2, 1, 3]).data).data).permute
          [0, 2, 1, 3]).data (flattenIdx [B, Hd, ht * wd, ht * wd] [b, h, i * wd + j, k * wd + l])
        exact congrArg _ (by rw [flattenIdx6, flattenIdx4]; try ring)
    _ = (Tensor.mk [B, ht * wd, Hd, ht * wd]
          (Tensor.mk [B * ht * wd, Hd, ht, wd]
            ((Tensor.mk [B, Hd, ht * wd, ht * wd]
              (ofFn [B * Hd, ht * wd, ht * wd] F).data).permute [0, 2, 1, 3]).data).data).entry
          [b, i * wd + j, h, k * wd + l] :=
        permute0213_entry _ B (ht * wd) Hd (ht * wd) b (i * wd + j) h (k * wd + l) rfl hbb hp hbh hq
    _ = ((Tensor.mk [B, Hd, ht * wd, ht * wd]
            (ofFn [B * Hd, ht * wd, ht * wd] F).data).permute [0, 2, 1, 3]).entry
          [b, i * wd + j, h, k * wd + l] := rfl
    _ = (Tensor.mk [B, Hd, ht * wd, ht * wd]
            (ofFn [B * Hd, ht * wd, ht * wd] F).data).entry [b, h, i * wd + j, k * wd + l] :=
        permute0213_entry _ B Hd (ht * wd) (ht * wd) b h (i * wd + j) (k * wd + l) rfl hbb hbh hp hq
    _ = (ofFn [B * Hd, ht * wd, ht * wd] F).data
          (flattenIdx [B * Hd, ht * wd, ht * wd] [b * Hd + h, i * wd + j, k * wd + l]) := by
        show (ofFn [B * Hd, ht * wd, ht * wd] F).data
            (flattenIdx [B, Hd, ht * wd, ht * wd] [b, h, i * wd + j, k * wd + l]) = _
        exact congrArg _ (by rw [flattenIdx4, flattenIdx3]; try ring)
    _ = F [b * Hd + h, i * wd + j, k * wd + l] := by
        show F (unflattenIdx [B * Hd, ht * wd, ht * wd]
          (flattenIdx [B * Hd, ht * wd, ht * wd] [b * Hd + h, i * wd + j, k * wd + l])) = _
        rw [unflatten_flatten (IdxLT.cons hβ (IdxLT.cons hp (IdxLT.cons hq IdxLT.nil)))]

/-- Entry of the head of the `corr` pipeline (the view/permute/reshape of a
feature map feeding `bmm`) in terms of the raw feature-map data. -/
theorem corr_side_entry (B Hd d ht wd : Nat) (g : Nat → ℚ) (b h i j e : Nat)
    (hbb : b < B) (hbh : h < Hd) (hbi : i < ht) (hbj : j < wd) (hbe : e < d) :
    (Tensor.mk [B * Hd, ht * wd, d]
      (Tensor.mk [B, Hd, ht * wd, d]
        ((Tensor.mk [B, Hd, d, ht, wd] g).permute [0, 1, 3, 4, 2]).data).data).entry
      [b * Hd + h, i * wd + j, e]
      = g (flattenIdx [B, Hd * d, ht, wd] [b, h * d + e, i, j]) := by
  calc (Tensor.mk [B * Hd, ht * wd, d]
      (Tensor.mk [B, Hd, ht * wd, d]
        ((Tensor.mk [B, Hd, d, ht, wd] g).permute [0, 1, 3, 4, 2]).data).data).entry [b * Hd + h, i * wd + j, e]
      = ((Tensor.mk [B, Hd, d, ht, wd] g).permute [0, 1, 3, 4, 2]).entry [b, h, i, j, e] := by
        show ((Tensor.mk [B, Hd, d, ht, wd] g).permute [0, 1, 3, 4, 2]).data
            (flattenIdx [B * Hd, ht * wd, d] [b * Hd + h, i * wd + j, e])
          = ((Tensor.mk [B, Hd, d, ht, wd] g).permute [0, 1, 3, 4, 2]).data
            (flattenIdx [B, Hd, ht, wd, d] [b, h, i, j, e])
        exact congrArg _ (by rw [flattenIdx3, flattenIdx5]; try ring)
    _ = (Tensor.mk [B, Hd, d, ht, wd] g).entry [b, h, e, i, j] :=
        permute01342_entry _ B Hd d ht wd b h e i j rfl hbb hbh hbe hbi hbj
    _ = g (flattenIdx [B, Hd * d, ht, wd] [b, h * d + e, i, j]) := by
        show g (flattenIdx [B, Hd, d, ht, wd] [b, h, e, i, j]) = _
        exact congrArg _ (by rw [flattenIdx5, flattenIdx4]; try ring)

/-- As `corr_side_entry`, but through the extra `transpose(1, 2)` applied to
the second feature map before `bmm`. -/
theorem corr_side_entry_t (B Hd d ht wd : Nat) (g : Nat → ℚ) (b h k l e : Nat)
    (hbb : b < B) (hbh : h < Hd) (hbk : k < ht) (hbl : l < wd) (hbe : e < d) :
    ((Tensor.mk [B * Hd, ht * wd, d]
      (Tensor.mk [B, Hd, ht * wd, d]
        ((Tensor.mk [B, Hd, d, ht, wd] g).permute [0, 1, 3, 4, 2]).data).data).permute
      [0, 2, 1]).entry [b * Hd + h, e, k * wd + l]
      = g (flattenIdx [B, Hd * d, ht, wd] [b, h * d + e, k, l]) := by
  have hβ : b * Hd + h < B * Hd := mul_add_lt hbb hbh
  have hq : k * wd + l < ht * wd := mul_add_lt hbk hbl
  calc ((Tensor.mk [B * Hd, ht * wd, d]
      (Tensor.mk [B, Hd, ht * wd, d]
        ((Tensor.mk [B, Hd, d, ht, wd] g).permute [0, 1, 3, 4, 2]).data).data).permute [0, 2, 1]).entry [b * Hd + h, e, k * wd + l]
      = (Tensor.mk [B * Hd, ht * wd, d]
          (Tensor.mk [B, Hd, ht * wd, d]
            ((Tensor.mk [B, Hd, d, ht, wd] g).permute [0, 1, 3, 4, 2]).data).data).entry
          [b * Hd + h, k * wd + l, e] :=
        permute021_entry _ (B * Hd) (ht * wd) d (b * Hd + h) (k * wd + l) e rfl hβ hq hbe
    _ = g (flattenIdx [B, Hd * d, ht, wd] [b, h * d + e, k, l]) :=
        corr_side_entry B Hd d ht wd g b h k l e hbb hbh hbk hbl hbe

/-- Entry/shape characterisation of `MemoryEncoder.corr`: for same-shaped
inputs with `heads * d` channels, the 6D output exists, has shape
`(batch, heads, ht, wd, ht, wd)`, and its `(b, h, i, j, k, l)` entry is the
raw dot product of head `h`'s contiguous channel group of `fmap1` at pixel
`(i, j)` with that of `fmap2` at pixel `(k, l)`. -/
theorem corr_entry_spec (heads d batch ht wd : Nat) (fmap1 fmap2 : Tensor)
    (h1 : fmap1.shape = [batch, heads * d, ht, wd])
    (h2 : fmap2.shape = [batch, heads * d, ht, wd])
    (hheads : 0 < heads) :
    ∃ T : Tensor, MemoryEncoder.corr heads fmap1 fmap2 = some T ∧
      T.shape = [batch, heads, ht, wd, ht, wd] ∧
      ∀ b h i j k l, b < batch → h < heads → i < ht → j < wd → k < ht → l < wd →
        T.entry [b, h, i, j, k, l] =
          ∑ e ∈ Finset.range d,
            fmap1.entry [b, h * d + e, i, j] * fmap2.entry [b, h * d + e, k, l] := by
  have hdiv : heads * d / heads = d := Nat.mul_div_cancel_left d hheads
  have hun : MemoryEncoder.corr heads fmap1 fmap2
      = MemoryEncoder.corrBody heads batch (heads * d) ht wd fmap1 fmap2 := by
    unfold MemoryEncoder.corr
    rw [h1]
  rw [hun]
  simp only [MemoryEncoder.corrBody]
  rw [hdiv]
  rw [reshape_bind (by rw [h1]; simp only [List.prod_cons, List.prod_nil]; ring)]
  rw [reshape_bind (by
    simp only [permute_shape, List.map_cons, List.map_nil, List.getD_cons_zero,
      List.getD_cons_succ, List.prod_cons, List.prod_nil]
    ring)]
  rw [reshape_bind (by rw [h2]; simp only [List.prod_cons, List.prod_nil]; ring)]
  rw [reshape_bind (by
    simp only [permute_shape, List.map_cons, List.map_nil, List.getD_cons_zero,
      List.getD_cons_succ, List.prod_cons, List.prod_nil]
    ring)]
  rw [reshape_bind (by simp only [List.prod_cons, List.prod_nil]; ring)]
  rw [reshape_bind (by simp only [List.prod_cons, List.prod_nil]; ring)]
  rw [bmm_bind (ht * wd) rfl rfl]
  rw [reshape_bind (by simp only [ofFn_shape, List.prod_cons, List.prod_nil]; ring)]
  rw [reshape_bind (by
    simp only [permute_shape, List.map_cons, List.map_nil, List.getD_cons_zero,
      List.getD_cons_succ, List.prod_cons, List.prod_nil]
    ring)]
  rw [reshape_bind (by simp only [List.prod_cons, List.prod_nil]; ring)]
  rw [reshape_eq_some (by
    simp only [permute_shape, List.map_cons, List.map_nil, List.getD_cons_zero,
      List.getD_cons_succ, List.prod_cons, List.prod_nil]
    ring)]
  refine ⟨_, rfl, rfl, ?_⟩
  intro b h i j k l hbb hbh hbi hbj hbk hbl
  refine Eq.trans (corr_outer_entry batch heads ht wd _ b h i j k l hbb hbh hbi hbj hbk hbl) ?_
  simp only [List.getD_cons_zero, List.getD_cons_succ]
  refine Finset.sum_congr rfl ?_
  intro e he
  have hbe : e < d := Finset.mem_range.mp he
  congr 1
  · exact Eq.trans (corr_side_entry batch heads d ht wd fmap1.data b h i j e hbb hbh hbi hbj hbe)
      (by unfold Tensor.entry; rw [h1])
  · exact Eq.trans (corr_side_entry_t batch heads d ht wd fmap2.data b h k l e hbb hbh hbk hbl hbe)
      (by unfold Tensor.entry; rw [h2])

/-- When `heads` does not divide the channel count, `corr` fails at its very
first `view` (element-count mismatch) rather than truncating the channels. -/
theorem corr_none_of_not_dvd (heads batch dim ht wd : Nat) (fmap1 fmap2 : Tensor)
    (h1 : fmap1.shape = [batch, dim, ht, wd]) (hnd : ¬ heads ∣ dim)
    (hb : 0 < batch) (hh : 0 < ht) (hw : 0 < wd) :
    MemoryEncoder.corr heads fmap1 fmap2 = none := by
  have hun : MemoryEncoder.corr heads fmap1 fmap2
      = MemoryEncoder.corrBody heads batch dim ht wd fmap1 fmap2 := by
    unfold MemoryEncoder.corr
    rw [h1]
  have hle : heads * (dim / heads) ≤ dim := by
    rw [Nat.mul_comm]
    exact Nat.div_mul_le_self dim heads
  have hne : heads * (dim / heads) ≠ dim := fun he => hnd ⟨dim / heads, he.symm⟩
  have key : heads * (dim / heads) < dim := lt_of_le_of_ne hle hne
  have hpos : 0 < batch * (ht * wd) := by positivity
  have hlt : ([batch, heads, dim / heads, ht, wd] : List Nat).prod
      < ([batch, dim, ht, wd] : List Nat).prod := by
    have e1 : ([batch, heads, dim / heads, ht, wd] : List Nat).prod
        = heads * (dim / heads) * (batch * (ht * wd)) := by
      simp only [List.prod_cons, List.prod_nil]
      ring
    have e2 : ([batch, dim, ht, wd] : List Nat).prod = dim * (batch * (ht * wd)) := by
      simp only [List.prod_cons, List.prod_nil]
      ring
    rw [e1, e2]
    exact (mul_lt_mul_right hpos).mpr key
  rw [hun]
  simp only [MemoryEncoder.corrBody]
  rw [Tensor.reshape, h1, if_neg (Nat.ne_of_lt hlt), Option.none_bind]

/-- A tiny concrete feature map used by witnesses: shape `(1, 2, 1, 1)`. -/
def sampleMap : Tensor := ⟨[1, 2, 1, 1], fun n => (n : ℚ) + 1⟩

/-- C1: for same-shaped feature maps whose channel count is `heads * d`
(`cost_heads_num` dividing the channels), `MemoryEncoder.corr` returns a
tensor of shape exactly `(batch, heads, H, W, H, W)` whose `(b, h, i, j, k, l)`
entry is the raw (unnormalised, unscaled) dot product of head `h`'s contiguous
channel group of `fmap1` at pixel `(i, j)` with that of `fmap2` at pixel
`(k, l)`; with `fmap2 = fmap1` the diagonal entries are per-head
self-dot-products. -/
theorem claim_C1_corr_entries (heads d batch ht wd : Nat) (fmap1 fmap2 : Tensor)
    (h1 : fmap1.shape = [batch, heads * d, ht, wd])
    (h2 : fmap2.shape = [batch, heads * d, ht, wd])
    (hheads : 0 < heads) :
    ∃ T : Tensor, MemoryEncoder.corr heads fmap1 fmap2 = some T ∧
      T.shape = [batch, heads, ht, wd, ht, wd] ∧
      ∀ b h i j k l, b < batch → h < heads → i < ht → j < wd → k < ht → l < wd →
        T.entry [b, h, i, j, k, l] =
          ∑ e ∈ Finset.range d,
            fmap1.entry [b, h * d + e, i, j] * fmap2.entry [b, h * d + e, k, l] :=
  corr_entry_spec heads d batch ht wd fmap1 fmap2 h1 h2 hheads

/-- C1 witness: `corr` with 2 heads on the concrete `(1, 2, 1, 1)` feature map,
evaluated at head 1 on the self-similarity diagonal. -/
theorem claim_C1_corr_entries_witness :
    (MemoryEncoder.corr 2 sampleMap sampleMap).map Tensor.shape = some [1, 2, 1, 1, 1, 1] ∧
    (MemoryEncoder.corr 2 sampleMap sampleMap).map (fun T => T.entry [0, 1, 0, 0, 0, 0]) =
      some (∑ e ∈ Finset.range 1,
        sampleMap.entry [0, 1 * 1 + e, 0, 0] * sampleMap.entry [0, 1 * 1 + e, 0, 0]) := by
  obtain ⟨T, hT, hs, he⟩ := claim_C1_corr_entries 2 1 1 1 1 sampleMap sampleMap rfl rfl
    (by decide)
  refine ⟨by rw [hT]; simp [hs], ?_⟩
  rw [hT]
  simp only [Option.map]
  rw [he 0 1 0 0 0 0 (by decide) (by decide) (by decide) (by decide) (by decide) (by decide)]

/-- C8: `corr` is bilinear — scaling either input feature map by a scalar `s`
scales every entry of the cost volume by `s`, with the shape unchanged. -/
theorem claim_C8_corr_bilinear (heads d batch ht wd : Nat) (s : ℚ) (fmap1 fmap2 : Tensor)
    (h1 : fmap1.shape = [batch, heads * d, ht, wd])
    (h2 : fmap2.shape = [batch, heads * d, ht, wd])
    (hheads : 0 < heads) :
    ∃ T Tl Tr : Tensor, MemoryEncoder.corr heads fmap1 fmap2 = some T ∧
      MemoryEncoder.corr heads (scaleT s fmap1) fmap2 = some Tl ∧
      MemoryEncoder.corr heads fmap1 (scaleT s fmap2) = some Tr ∧
      Tl.shape = T.shape ∧ Tr.shape = T.shape ∧
      ∀ b h i j k l, b < batch → h < heads → i < ht → j < wd → k < ht → l < wd →
        Tl.entry [b, h, i, j, k, l] = s * T.entry [b, h, i, j, k, l] ∧
        Tr.entry [b, h, i, j, k, l] = s * T.entry [b, h, i, j, k, l] := by
  obtain ⟨T, hT, hTs, hTe⟩ := corr_entry_spec heads d batch ht wd fmap1 fmap2 h1 h2 hheads
  obtain ⟨Tl, hTl, hTls, hTle⟩ :=
    corr_entry_spec heads d batch ht wd (scaleT s fmap1) fmap2 h1 h2 hheads
  obtain ⟨Tr, hTr, hTrs, hTre⟩ :=
    corr_entry_spec heads d batch ht wd fmap1 (scaleT s fmap2) h1 h2 hheads
  refine ⟨T, Tl, Tr, hT, hTl, hTr, hTs.trans hTls.symm ▸ rfl, ?_, ?_⟩
  · rw [hTrs, hTs]
  intro b h i j k l hbb hbh hbi hbj hbk hbl
  constructor
  · rw [hTle b h i j k l hbb hbh hbi hbj hbk hbl, hTe b h i j k l hbb hbh hbi hbj hbk hbl,
      Finset.mul_sum]
    refine Finset.sum_congr rfl ?_
    intro e he
    rw [scaleT_entry]
    ring
  · rw [hTre b h i j k l hbb hbh hbi hbj hbk hbl, hTe b h i j k l hbb hbh hbi hbj hbk hbl,
      Finset.mul_sum]
    refine Finset.sum_congr rfl ?_
    intro e he
    rw [scaleT_entry]
    ring

/-- C8 witness: scaling the concrete `(1, 2, 1, 1)` feature map by 3 scales the
cost-volume entries by 3. -/
theorem claim_C8_corr_bilinear_witness :
    (MemoryEncoder.corr 2 (scaleT 3 sampleMap) sampleMap).map
        (fun T => T.entry [0, 1, 0, 0, 0, 0]) =
      (MemoryEncoder.corr 2 sampleMap sampleMap).map
        (fun T => 3 * T.entry [0, 1, 0, 0, 0, 0]) := by
  obtain ⟨T, Tl, Tr, hT, hTl, hTr, _, _, hent⟩ :=
    claim_C8_corr_bilinear 2 1 1 1 1 3 sampleMap sampleMap rfl rfl (by decide)
  rw [hT, hTl]
  simp only [Option.map]
  rw [(hent 0 1 0 0 0 0 (by decide) (by decide) (by decide) (by decide) (by decide) (by decide)).1]

/-! ## InputPadder (src/core/utils/utils.py, lines 7-27)

`InputPadder` pads the last two (spatial) axes; leading axes are untouched, so
an image is modelled by its spatial slice.  The constructor reads
`dims[-2:]`, modelled by passing `ht, wd` directly.  In `kitti400` mode the
Python expression `400 - self.ht` can be negative (torch then crops); the Nat
subtraction below matches Python for `ht ≤ 400`, and the round-trip claim is
about the default `sintel` mode. -/

/-- A 2D (spatial) slice of a tensor. -/
structure Img2 where
  ht : Nat
  wd : Nat
  data : Nat → Nat → ℚ

inductive PadMode | sintel | kitti400 | other

structure InputPadder where
  ht : Nat
  wd : Nat
  pads : List Nat

/-- `InputPadder.__init__`: `_pad = [pad_wd//2, pad_wd - pad_wd//2, pad_ht//2,
pad_ht - pad_ht//2]` in `sintel` mode, etc. -/
def InputPadder.init (ht wd : Nat) (mode : PadMode) : InputPadder :=
  let pad_ht := ((ht / 8 + 1) * 8 - ht) % 8
  let pad_wd := ((wd / 8 + 1) * 8 - wd) % 8
  match mode with
  | .sintel => ⟨ht, wd, [pad_wd / 2, pad_wd - pad_wd / 2, pad_ht / 2, pad_ht - pad_ht / 2]⟩
  | .kitti400 => ⟨ht, wd, [0, 0, 0, 400 - ht]⟩
  | .other => ⟨ht, wd, [pad_wd / 2, pad_wd - pad_wd / 2, 0, pad_ht]⟩

/-- `F.pad(x, [pl, pr, pt, pb], mode='replicate')`: border values are
replicated (index clamped to the original range). -/
def replicatePad (img : Img2) (pl pr pt pb : Nat) : Img2 :=
  ⟨img.ht + pt + pb, img.wd + pl + pr, fun i j =>
    img.data (min (i - pt) (img.ht - 1)) (min (j - pl) (img.wd - 1))⟩

/-- `InputPadder.pad` (single input): early-returns the input unchanged when
the total padding is zero. -/
def InputPadder.pad (p : InputPadder) (x : Img2) : Img2 :=
  if p.pads.sum = 0 then x
  else replicatePad x (p.pads.getD 0 0) (p.pads.getD 1 0) (p.pads.getD 2 0) (p.pads.getD 3 0)

/-- `InputPadder.unpad`: crops `x[..., c0:c1, c2:c3]` with
`c = [pad[2], ht - pad[3], pad[0], wd - pad[1]]`. -/
def InputPadder.unpad (p : InputPadder) (x : Img2) : Img2 :=
  let c0 := p.pads.getD 2 0
  let c1 := x.ht - p.pads.getD 3 0
  let c2 := p.pads.getD 0 0
  let c3 := x.wd - p.pads.getD 1 0
  ⟨c1 - c0, c3 - c2, fun i j => x.data (c0 + i) (c2 + j)⟩

/-- C9: constructing an `InputPadder` from a tensor's spatial shape (default
`sintel` mode), padding, then unpadding reproduces the tensor exactly: same
spatial shape and the same value at every in-range position. -/
theorem claim_C9_padder_roundtrip (x : Img2) :
    ((InputPadder.init x.ht x.wd PadMode.sintel).unpad
      ((InputPadder.init x.ht x.wd PadMode.sintel).pad x)).ht = x.ht ∧
    ((InputPadder.init x.ht x.wd PadMode.sintel).unpad
      ((InputPadder.init x.ht x.wd PadMode.sintel).pad x)).wd = x.wd ∧
    ∀ i j, i < x.ht → j < x.wd →
      ((InputPadder.init x.ht x.wd PadMode.sintel).unpad
        ((InputPadder.init x.ht x.wd PadMode.sintel).pad x)).data i j = x.data i j := by
  obtain ⟨ht, wd, f⟩ := x
  simp only [InputPadder.init, InputPadder.pad, InputPadder.unpad, replicatePad]
  by_cases hz : ([((wd / 8 + 1) * 8 - wd) % 8 / 2,
      ((wd / 8 + 1) * 8 - wd) % 8 - ((wd / 8 + 1) * 8 - wd) % 8 / 2,
      ((ht / 8 + 1) * 8 - ht) % 8 / 2,
      ((ht / 8 + 1) * 8 - ht) % 8 - ((ht / 8 + 1) * 8 - ht) % 8 / 2] : List Nat).sum = 0
  · rw [if_pos hz]
    simp only [List.sum_cons, List.sum_nil] at hz
    simp only [List.getD_cons_zero, List.getD_cons_succ]
    refine ⟨by omega, by omega, ?_⟩
    intro i j hi hj
    have h2 : ((ht / 8 + 1) * 8 - ht) % 8 / 2 = 0 := by omega
    have h0 : ((wd / 8 + 1) * 8 - wd) % 8 / 2 = 0 := by omega
    rw [h2, h0, Nat.zero_add, Nat.zero_add]
  · rw [if_neg hz]
    simp only [List.getD_cons_zero, List.getD_cons_succ]
    have hph : ((ht / 8 + 1) * 8 - ht) % 8 / 2 ≤ ((ht / 8 + 1) * 8 - ht) % 8 := Nat.div_le_self _ _
    have hpw : ((wd / 8 + 1) * 8 - wd) % 8 / 2 ≤ ((wd / 8 + 1) * 8 - wd) % 8 := Nat.div_le_self _ _
    refine ⟨by omega, by omega, ?_⟩
    intro i j hi hj
    have e1 : ((ht / 8 + 1) * 8 - ht) % 8 / 2 + i - ((ht / 8 + 1) * 8 - ht) % 8 / 2 = i := by omega
    have e2 : ((wd / 8 + 1) * 8 - wd) % 8 / 2 + j - ((wd / 8 + 1) * 8 - wd) % 8 / 2 = j := by omega
    rw [e1, e2]
    rw [Nat.min_eq_left (by omega), Nat.min_eq_left (by omega)]

/-- C9 witness: round trip on a concrete 3x5 image. -/
theorem claim_C9_padder_roundtrip_witness :
    ((InputPadder.init (Img2.mk 3 5 (fun i j => (i : ℚ) + j)).ht
        (Img2.mk 3 5 (fun i j => (i : ℚ) + j)).wd PadMode.sintel).unpad
      ((InputPadder.init (Img2.mk 3 5 (fun i j => (i : ℚ) + j)).ht
        (Img2.mk 3 5 (fun i j => (i : ℚ) + j)).wd PadMode.sintel).pad
        (Img2.mk 3 5 (fun i j => (i : ℚ) + j)))).data 2 4
      = (Img2.mk 3 5 (fun i j => (i : ℚ) + j)).data 2 4 :=
  (claim_C9_padder_roundtrip (Img2.mk 3 5 (fun i j => (i : ℚ) + j))).2.2 2 4
    (by decide) (by decide)

/-! ## bilinear_sampler and indexing (src/core/utils/utils.py, lines 59-101)

A coordinate grid is a function from a flattened position to its two channels
(0 = x, 1 = y).  The in-place writes of `bilinear_sampler` are modelled by
explicit state passing: each function returns, alongside its image result, the
tensor the caller's `coords` variable refers to after the call.
`F.grid_sample` itself never writes to `coords`, and its numerics are outside
these claims, so it is a parameter. -/

structure Coords where
  n : Nat
  data : Nat → Nat → ℚ

/-- `bilinear_sampler` (the 2024-06-22 in-place version): writes the
normalised x channel, then the normalised y channel, into `coords` itself,
then calls `F.grid_sample` on the mutated grid. -/
def bilinear_sampler (grid_sample : Img2 → Coords → Img2) (img : Img2) (coords : Coords) :
    Img2 × Coords :=
  let H := img.ht
  let W := img.wd
  let coords1 : Coords := ⟨coords.n, fun p c =>
    if c = 0 then 2 * coords.data p 0 / ((W : ℚ) - 1) - 1 else coords.data p c⟩
  let coords2 : Coords := ⟨coords1.n, fun p c =>
    if c = 1 then 2 * coords1.data p 1 / ((H : ℚ) - 1) - 1 else coords1.data p c⟩
  (grid_sample img coords2, coords2)

/-- `indexing`: `split` returns views, but the normalised grids are rebound to
fresh tensors and concatenated into a new `grid`, so the caller's `coords` is
left untouched; `mask=True` additionally returns an in-range mask. -/
def indexing (grid_sample_nearest : Img2 → Coords → Img2) (img : Img2) (coords : Coords)
    (mask : Bool) : (Img2 × Option (Nat → Bool)) × Coords :=
  let H := img.ht
  let W := img.wd
  let xgrid : Nat → ℚ := fun p => 2 * coords.data p 0 / ((W : ℚ) - 1) - 1
  let ygrid : Nat → ℚ := fun p => 2 * coords.data p 1 / ((H : ℚ) - 1) - 1
  let grid : Coords := ⟨coords.n, fun p c => if c = 0 then xgrid p else ygrid p⟩
  let m : Nat → Bool := fun p =>
    decide (xgrid p > -1) && decide (ygrid p > -1) &&
    decide (xgrid p < 1) && decide (ygrid p < 1)
  ((grid_sample_nearest img grid, if mask then some m else none), coords)

/-- C10: after every call `bilinear_sampler` has overwritten the caller's
`coords` with the normalised coordinates (`2*x/(W-1) - 1`, `2*y/(H-1) - 1`),
whereas `indexing` returns the caller's `coords` exactly unchanged. -/
theorem claim_C10_sampler_mutates_coords (gs gsn : Img2 → Coords → Img2) (img : Img2)
    (coords : Coords) (mask : Bool) :
    (∀ p, (bilinear_sampler gs img coords).2.data p 0
        = 2 * coords.data p 0 / ((img.wd : ℚ) - 1) - 1) ∧
    (∀ p, (bilinear_sampler gs img coords).2.data p 1
        = 2 * coords.data p 1 / ((img.ht : ℚ) - 1) - 1) ∧
    (bilinear_sampler gs img coords).2.n = coords.n ∧
    (indexing gsn img coords mask).2 = coords := by
  refine ⟨fun p => ?_, fun p => ?_, rfl, rfl⟩
  · simp [bilinear_sampler]
  · simp [bilinear_sampler]


/-! ## Python-level error model

The forward passes below are fallible: a failing `view`/`reshape`, a failed
`assert`, a call with the wrong number of arguments (Python `TypeError`), or
an access to a never-created attribute (Python `AttributeError`). -/

inductive PyErr where
  | typeError
  | attributeError
  | assertionError (msg : String)
  | valueError
  | runtimeError
deriving DecidableEq

/-- Argument of a Python call (only what the modelled calls need). -/
inductive PyVal where
  | nat (n : Nat)
  | device
  | dtype

def liftO {α : Type} : Option α → Except PyErr α
  | some a => .ok a
  | none => .error .runtimeError

namespace Tensor

/-- `F.pad(x, (pl, pr, pt, pb))` with zeros on a rank-4 `[B, C, H, W]`
tensor: the first pair pads the last axis (width), the second the height. -/
def fpad2 (t : Tensor) (pl pr pt pb : Nat) : Tensor :=
  match t.shape with
  | [b, c, h, w] =>
    ofFn [b, c, pt + h + pb, pl + w + pr] (fun idx =>
      match idx with
      | [bi, ci, i, j] =>
        if pt ≤ i ∧ i < pt + h ∧ pl ≤ j ∧ j < pl + w then
          t.entry [bi, ci, i - pt, j - pl]
        else 0
      | _ => 0)
  | _ => t

/-- `F.pad(x, (pcl, pcr, pl, pr, pt, pb))` with zeros on a rank-4
`[B, H, W, C]` tensor: pairs pad the channel, width and height axes. -/
def fpad3 (t : Tensor) (pcl pcr pl pr pt pb : Nat) : Tensor :=
  match t.shape with
  | [b, h, w, c] =>
    ofFn [b, pt + h + pb, pl + w + pr, pcl + c + pcr] (fun idx =>
      match idx with
      | [bi, i, j, ci] =>
        if pt ≤ i ∧ i < pt + h ∧ pl ≤ j ∧ j < pl + w ∧ pcl ≤ ci ∧ ci < pcl + c then
          t.entry [bi, i - pt, j - pl, ci - pcl]
        else 0
      | _ => 0)
  | _ => t

/-- `torch.cat([a, b], dim=-1)`. -/
def catLast (a b : Tensor) : Tensor :=
  let ca := a.shape.getLastD 0
  let cb := b.shape.getLastD 0
  ofFn (a.shape.dropLast ++ [ca + cb]) (fun idx =>
    let c := idx.getLastD 0
    if c < ca then a.entry idx else b.entry (idx.dropLast ++ [c - ca]))

/-- `nn.Linear(inC, outC)` applied along the last axis: `y = x Wᵀ + b`. -/
def linearLast (inC outC : Nat) (W : Nat → Nat → ℚ) (bv : Nat → ℚ) (t : Tensor) : Tensor :=
  ofFn (t.shape.dropLast ++ [outC]) (fun idx =>
    bv (idx.getLastD 0) +
      ∑ c ∈ Finset.range inC, W (idx.getLastD 0) c * t.entry (idx.dropLast ++ [c]))

/-- `.repeat(r, 1, ..., 1)`: tile along axis 0. -/
def repeatDim0 (t : Tensor) (r : Nat) : Tensor :=
  match t.shape with
  | d0 :: rest =>
    ofFn (d0 * r :: rest) (fun idx =>
      match idx with
      | i :: is => t.entry (i % d0 :: is)
      | _ => 0)
  | [] => t

/-- `.view(pre..., -1, post...)`: the middle axis is inferred; fails (like
torch) when the known axes do not divide the element count evenly. -/
def viewInfer (t : Tensor) (pre post : List Nat) : Option Tensor :=
  let known := pre.prod * post.prod
  let m := t.numel / known
  if known * m = t.numel then some ⟨pre ++ [m] ++ post, t.data⟩ else none

/-- Indexing `[0]` along axis 0. -/
def select0 (t : Tensor) : Tensor :=
  ofFn t.shape.tail (fun idx => t.entry (0 :: idx))

/-- `.transpose(-2, -1)`. -/
def transposeLast2 (t : Tensor) : Tensor :=
  let r := t.shape.length
  t.permute (List.range (r - 2) ++ [r - 1, r - 2])

/-- Batched `@` over the last two axes. -/
def matLast (a b : Tensor) : Tensor :=
  let m := a.shape.getLastD 0
  ofFn (a.shape.dropLast ++ [b.shape.getLastD 0]) (fun idx =>
    ∑ e ∈ Finset.range m,
      a.entry (idx.dropLast ++ [e]) *
      b.entry (idx.dropLast.dropLast ++ [e, idx.getLastD 0]))

/-- `.softmax(dim=-1)`, parametrised by the exponential primitive. -/
def softmaxLast (expf : ℚ → ℚ) (t : Tensor) : Tensor :=
  let L := t.shape.getLastD 0
  ofFn t.shape (fun idx =>
    expf (t.entry idx) / ∑ e ∈ Finset.range L, expf (t.entry (idx.dropLast ++ [e])))

/-- Same-rank broadcasting `+` (size-1 axes of `b` are repeated). -/
def addBc (a b : Tensor) : Tensor :=
  ofFn a.shape (fun idx => a.entry idx + b.entry (List.zipWith (fun i s => i % s) idx b.shape))

/-- Pointwise `+` of same-shaped tensors. -/
def addT (a b : Tensor) : Tensor := ⟨a.shape, fun n => a.data n + b.data n⟩

/-- Pointwise addition of a scalar. -/
def addScalarT (c : ℚ) (t : Tensor) : Tensor := ⟨t.shape, fun n => t.data n + c⟩

/-- `nn.ReLU`. -/
def reluT (t : Tensor) : Tensor := ⟨t.shape, fun n => max (t.data n) 0⟩

/-- `torch.cat([a, b], dim=1)` on rank-4 tensors (channel concatenation). -/
def catDim1 (a b : Tensor) : Tensor :=
  match a.shape, b.shape with
  | [ba, ca, h, w], [_, cb, _, _] =>
    ofFn [ba, ca + cb, h, w] (fun idx =>
      match idx with
      | [bi, c, i, j] => if c < ca then a.entry [bi, c, i, j] else b.entry [bi, c - ca, i, j]
      | _ => 0)
  | _, _ => a

/-- `x[:, :H, :W, :]` on a rank-4 tensor. -/
def crop2 (t : Tensor) (H W : Nat) : Tensor :=
  match t.shape with
  | [b, _, _, c] => ofFn [b, H, W, c] (fun idx => t.entry idx)
  | _ => t

/-- `nn.LayerNorm` over the last axis (`eps = 1e-5`), parametrised by the
reciprocal square root primitive. -/
def layerNormLast (γ β : Nat → ℚ) (rsqrtF : ℚ → ℚ) (t : Tensor) : Tensor :=
  let L := t.shape.getLastD 0
  ofFn t.shape (fun idx =>
    let μ := (∑ e ∈ Finset.range L, t.entry (idx.dropLast ++ [e])) / L
    let va := (∑ e ∈ Finset.range L, (t.entry (idx.dropLast ++ [e]) - μ) ^ 2) / L
    γ (idx.getLastD 0) * ((t.entry idx - μ) * rsqrtF (va + 1 / 100000)) + β (idx.getLastD 0))

/-- The interior of a convolution: `[b, outC, oh, ow]` output with `k`-sized
kernels at stride `s` over the `p`-zero-padded input. -/
def convKernel (outC k s p : Nat) (W : Nat → Nat → Nat → Nat → ℚ) (bv : Nat → ℚ)
    (b c h w : Nat) (x : Tensor) : Tensor :=
  ofFn [b, outC, (h + 2 * p - k) / s + 1, (w + 2 * p - k) / s + 1] (fun idx =>
    match idx with
    | [bi, o, i, j] =>
      bv o + ∑ cc ∈ Finset.range c, ∑ u ∈ Finset.range k, ∑ v ∈ Finset.range k,
        W o cc u v *
          (if p ≤ s * i + u ∧ s * i + u < h + p ∧ p ≤ s * j + v ∧ s * j + v < w + p then
            x.entry [bi, cc, s * i + u - p, s * j + v - p]
          else 0)
    | _ => 0)

/-- `nn.Conv2d(inC, outC, kernel_size=k, stride=s, padding=p)`; fails (like
torch) on a channel mismatch or a kernel larger than the padded input. -/
def conv2d (inC outC k s p : Nat) (W : Nat → Nat → Nat → Nat → ℚ) (bv : Nat → ℚ)
    (x : Tensor) : Except PyErr Tensor :=
  match x.shape with
  | [b, c, h, w] =>
    if c = inC ∧ k ≤ h + 2 * p ∧ k ≤ w + 2 * p then
      .ok (convKernel outC k s p W bv b c h w x)
    else .error .runtimeError
  | _ => .error .runtimeError

end Tensor

/-! ## coords_grid (src/core/utils/utils.py, lines 103-110)

`coords_grid` is declared with exactly four parameters
`(batch, ht, wd, device)`.  Python raises `TypeError` when a call supplies a
different number of positional arguments, before the body runs; the call is
therefore modelled at the Python level, by an argument list. -/

/-- The body of `coords_grid`: channel 0 is the column (x) index, channel 1
the row (y) index, tiled over the batch. -/
def coords_grid (batch ht wd : Nat) : Tensor :=
  Tensor.ofFn [batch, 2, ht, wd] (fun idx =>
    match idx with
    | [_, c, i, j] => if c = 0 then (j : ℚ) else (i : ℚ)
    | _ => 0)

/-- The declared parameter count of `def coords_grid(batch, ht, wd, device)`. -/
def coordsGridParamCount : Nat := 4

/-- A Python-level call of `coords_grid`: `TypeError` unless exactly four
positional arguments are supplied. -/
def coords_grid_call (args : List PyVal) : Except PyErr Tensor :=
  if args.length = coordsGridParamCount then
    match args with
    | [.nat b, .nat h, .nat w, .device] => .ok (coords_grid b h w)
    | _ => .error .typeError
  else .error .typeError

/-- Modelled from the spec: `LinearPositionEmbeddingSine` lives in
`core/attention.py`, which is not part of the sources; the spec fixes only its
interface — a sinusoidal encoding of 2D coordinates `[B, N, 2]` into a vector
of a specified even dimension `[B, N, dim]`.  The trigonometric primitives and
the frequency schedule are abstract parameters. -/
def LinearPositionEmbeddingSine (sinF cosF : ℚ → ℚ) (freqF : Nat → ℚ)
    (coords : Tensor) (dim : Nat) : Tensor :=
  match coords.shape with
  | [b, n, _] =>
    Tensor.ofFn [b, n, dim] (fun idx =>
      match idx with
      | [bi, ni, c] =>
        let axis : Nat := if c < dim / 2 then 0 else 1
        if c % 2 = 0 then sinF (coords.entry [bi, ni, axis] * freqF c)
        else cosF (coords.entry [bi, ni, axis] * freqF c)
      | _ => 0)
  | _ => Tensor.ofFn [0] (fun _ => 0)

/-! ## Construction-time models (twins.py and encoder.py constructors)

Learned weights are abstract parameters gathered in one bundle (dropout rates
do not participate in any constructor check and are identities in eval mode,
so they are omitted).  `scale = head_dim ** -0.5` is irrational and therefore
kept abstract as well. -/

structure AttnWeights where
  context_projW : Nat → Nat → ℚ
  context_projB : Nat → ℚ
  qW : Nat → Nat → ℚ
  qB : Nat → ℚ
  kW : Nat → Nat → ℚ
  kB : Nat → ℚ
  vW : Nat → Nat → ℚ
  vB : Nat → ℚ
  projW : Nat → Nat → ℚ
  projB : Nat → ℚ
  srKeyW : Nat → Nat → Nat → Nat → ℚ
  srKeyB : Nat → ℚ
  srValW : Nat → Nat → Nat → Nat → ℚ
  srValB : Nat → ℚ
  normW : Nat → ℚ
  normB : Nat → ℚ
  scale : ℚ
  sinF : ℚ → ℚ
  cosF : ℚ → ℚ
  freqF : Nat → ℚ
  expF : ℚ → ℚ
  rsqrtF : ℚ → ℚ

/-- All-zero weight bundle for concrete witnesses. -/
def zeroWeights : AttnWeights :=
  ⟨fun _ _ => 0, fun _ => 0, fun _ _ => 0, fun _ => 0, fun _ _ => 0, fun _ => 0,
   fun _ _ => 0, fun _ => 0, fun _ _ => 0, fun _ => 0, fun _ _ _ _ => 0, fun _ => 0,
   fun _ _ _ _ => 0, fun _ => 0, fun _ => 0, fun _ => 0, 0,
   fun q => q, fun q => q, fun _ => 1, fun q => q, fun q => q⟩

/-- The assertion message of the `dim % num_heads` checks. -/
def dvdMsg (dim num_heads : Nat) : String :=
  "dim " ++ toString dim ++ " should be divided by num_heads " ++ toString num_heads ++ "."

/-- State of a constructed `LocallyGroupedAttnRPEContext`. -/
structure LGModule where
  dim : Nat
  num_heads : Nat
  ws : Nat
  vert_c_dim : Nat
  w : AttnWeights

/-- `LocallyGroupedAttnRPEContext.__init__` (twins.py, lines 56-75):
`assert ws != 1` (a bare assert), then `assert dim % num_heads == 0` with a
formatted message. -/
def LocallyGroupedAttnRPEContext.init (dim num_heads ws vert_c_dim : Nat) (w : AttnWeights) :
    Except PyErr LGModule :=
  if ws = 1 then .error (.assertionError "") else
  if dim % num_heads = 0 then .ok ⟨dim, num_heads, ws, vert_c_dim, w⟩
  else .error (.assertionError (dvdMsg dim num_heads))

/-- State of a constructed `GlobalSubSampleAttnRPEContext`: when
`sr_ratio = 1` the `else` branch sets `self.sr = None` but never creates the
`sr_key` attribute that `forward` reads. -/
structure GSSModule where
  dim : Nat
  num_heads : Nat
  sr_ratio : Nat
  vert_c_dim : Nat
  sr_key_defined : Bool
  w : AttnWeights

/-- `GlobalSubSampleAttnRPEContext.__init__` (twins.py, lines 133-158). -/
def GlobalSubSampleAttnRPEContext.init (dim num_heads sr_ratio vert_c_dim : Nat)
    (w : AttnWeights) : Except PyErr GSSModule :=
  if dim % num_heads = 0 then
    .ok ⟨dim, num_heads, sr_ratio, vert_c_dim, decide (1 < sr_ratio), w⟩
  else .error (.assertionError (dvdMsg dim num_heads))

/-- `self.sr_key is not None` in `forward`: reading the attribute raises
`AttributeError` when `__init__` never created it (`sr_ratio = 1`). -/
def GSSModule.read_sr_key (m : GSSModule) : Except PyErr Bool :=
  if m.sr_key_defined then .ok true else .error .attributeError

/-- `Block.__init__` (twins.py, lines 218-241): `ws == 1` selects the
global-subsampled attention, anything else the locally-grouped one. -/
inductive BlockAttn where
  | lg (m : LGModule)
  | gss (m : GSSModule)

def Block.init (dim num_heads sr_ratio ws vert_c_dim : Nat) (w : AttnWeights) :
    Except PyErr BlockAttn :=
  if ws = 1 then (GlobalSubSampleAttnRPEContext.init dim num_heads sr_ratio vert_c_dim w).map .gss
  else (LocallyGroupedAttnRPEContext.init dim num_heads ws vert_c_dim w).map .lg

/-- `SelfAttentionLayer.__init__` (encoder.py, lines 97-122): only the
divisibility assertion can fail. -/
def SelfAttentionLayer.init (dim num_heads : Nat) : Except PyErr Unit :=
  if dim % num_heads = 0 then .ok ()
  else .error (.assertionError (dvdMsg dim num_heads))

/-- `CrossAttentionLayer.__init__` (encoder.py, lines 150-178): asserts for
`qk_dim` and `v_dim`. -/
def CrossAttentionLayer.init (qk_dim v_dim query_token_dim tgt_token_dim num_heads : Nat) :
    Except PyErr Unit :=
  if qk_dim % num_heads = 0 then
    if v_dim % num_heads = 0 then .ok ()
    else .error (.assertionError (dvdMsg v_dim num_heads))
  else .error (.assertionError (dvdMsg qk_dim num_heads))

/-- `VerticalSelfAttentionLayer.__init__` (encoder.py, lines 58-81): a local
`Block` with `ws = 7, sr_ratio = 4` and a global one with `ws = 1`. -/
def VerticalSelfAttentionLayer.init (dim vert_c_dim num_heads : Nat) (w : AttnWeights) :
    Except PyErr (BlockAttn × BlockAttn) := do
  let lb ← Block.init dim num_heads 4 7 vert_c_dim w
  let gb ← Block.init dim num_heads 4 1 vert_c_dim w
  pure (lb, gb)

/-- The configuration surface the constructors consume (dropout and the
pretrain flag take part in no check and are omitted). -/
structure Config where
  cost_heads_num : Nat
  cost_latent_token_num : Nat
  cost_latent_dim : Nat
  cost_latent_input_dim : Nat
  encoder_depth : Nat
  vert_c_dim : Nat
  encoder_latent_dim : Nat

/-- `CostPerceiverEncoder.__init__` (encoder.py, lines 195-213): `PatchEmbed`
asserts nothing; the cross-attention bottleneck and `encoder_depth` copies of
the self/vertical layers are constructed with the default `num_heads = 8`. -/
def CostPerceiverEncoder.init (cfg : Config) (w : AttnWeights) : Except PyErr Unit := do
  let _ ← CrossAttentionLayer.init cfg.cost_latent_dim cfg.cost_latent_dim
    cfg.cost_latent_dim (cfg.cost_latent_input_dim * 2) 8
  let _ ← (List.range cfg.encoder_depth).forM
    (fun _ => SelfAttentionLayer.init cfg.cost_latent_dim 8)
  let _ ← (List.range cfg.encoder_depth).forM (fun _ => do
    let _ ← VerticalSelfAttentionLayer.init cfg.cost_latent_dim cfg.vert_c_dim 8 w
    pure ())
  pure ()

/-- `MemoryEncoder.__init__` (encoder.py, lines 236-242): the feature encoder
and the 1x1 `channel_convertor` perform no head-divisibility check, and
`cost_heads_num` is never validated against the feature channel count. -/
def MemoryEncoder.init (cfg : Config) (w : AttnWeights) : Except PyErr Unit :=
  CostPerceiverEncoder.init cfg w


/-- C4 counterexample: a configuration whose `cost_heads_num = 3` does not
divide the feature channel count `encoder_latent_dim = 64`, yet construction
of the `MemoryEncoder` succeeds — the head count is never validated at
construction time. -/
theorem claim_C4_counterexample :
    MemoryEncoder.init (Config.mk 3 8 64 64 2 32 64) zeroWeights = Except.ok () ∧
    ¬ (3 ∣ 64) := by
  constructor
  · rfl
  · decide

/-- C4 (amended): the attention layers do fail at construction with the
formatted divisibility message when `num_heads` does not divide their token
dimension; `cost_heads_num` not dividing the feature channels is not checked
at construction but fails at the point of use — `corr`'s first `view` errors
instead of truncating the channel dimension. -/
theorem claim_C4_divisibility_checks :
    (∀ dim num_heads : Nat, ¬ num_heads ∣ dim →
      SelfAttentionLayer.init dim num_heads = .error (.assertionError (dvdMsg dim num_heads))) ∧
    (∀ qk_dim v_dim qt tt num_heads : Nat, ¬ num_heads ∣ qk_dim →
      CrossAttentionLayer.init qk_dim v_dim qt tt num_heads =
        .error (.assertionError (dvdMsg qk_dim num_heads))) ∧
    (∀ heads batch dim ht wd : Nat, ∀ fmap1 fmap2 : Tensor,
      fmap1.shape = [batch, dim, ht, wd] → ¬ heads ∣ dim →
      0 < batch → 0 < ht → 0 < wd →
      MemoryEncoder.corr heads fmap1 fmap2 = none) := by
  refine ⟨?_, ?_, ?_⟩
  · intro dim num_heads hnd
    unfold SelfAttentionLayer.init
    rw [if_neg (fun hmod => hnd (Nat.dvd_of_mod_eq_zero hmod))]
  · intro qk_dim v_dim qt tt num_heads hnd
    unfold CrossAttentionLayer.init
    rw [if_neg (fun hmod => hnd (Nat.dvd_of_mod_eq_zero hmod))]
  · intro heads batch dim ht wd fmap1 fmap2 h1 hnd hb hh hw
    exact corr_none_of_not_dvd heads batch dim ht wd fmap1 fmap2 h1 hnd hb hh hw

/-- C4 witness: concrete failing constructions (`dim = 10`, `num_heads = 4`)
and a concrete `corr` that fails at the point of use with 3 heads over 4
channels. -/
theorem claim_C4_divisibility_checks_witness :
    SelfAttentionLayer.init 10 4 = .error (.assertionError (dvdMsg 10 4)) ∧
    CrossAttentionLayer.init 10 6 12 12 4 = .error (.assertionError (dvdMsg 10 4)) ∧
    MemoryEncoder.corr 3 (Tensor.mk [1, 4, 1, 1] (fun _ => 1))
      (Tensor.mk [1, 4, 1, 1] (fun _ => 1)) = none := by
  refine ⟨claim_C4_divisibility_checks.1 10 4 (by decide),
    claim_C4_divisibility_checks.2.1 10 6 12 12 4 (by decide),
    claim_C4_divisibility_checks.2.2 3 1 4 1 1 _ _ rfl (by decide)
      (by decide) (by decide) (by decide)⟩


/-! ## PatchEmbed (src/core/encoder.py, lines 12-55)

`forward` pads to a multiple of the patch size 8, applies the three-stage
strided downsampling `self.proj`, then calls
`coords_grid(B, out_size[0], out_size[1], x.device, x.dtype)` — five
positional arguments against the four-parameter `coords_grid` of
src/core/utils/utils.py, a Python `TypeError`.  The code after that call is
translated all the same (it is unreachable as the sources stand). -/

structure PatchEmbedModule where
  in_chans : Nat
  embed_dim : Nat
  conv1W : Nat → Nat → Nat → Nat → ℚ
  conv1B : Nat → ℚ
  conv2W : Nat → Nat → Nat → Nat → ℚ
  conv2B : Nat → ℚ
  conv3W : Nat → Nat → Nat → Nat → ℚ
  conv3B : Nat → ℚ
  ffn1W : Nat → Nat → ℚ
  ffn1B : Nat → ℚ
  ffn2W : Nat → Nat → ℚ
  ffn2B : Nat → ℚ
  normW : Nat → ℚ
  normB : Nat → ℚ
  sinF : ℚ → ℚ
  cosF : ℚ → ℚ
  freqF : Nat → ℚ
  rsqrtF : ℚ → ℚ

/-- Lines 35-38: zero-pad H and W up to the next multiple of the patch
size 8 (`pad_l = pad_t = 0`). -/
def PatchEmbed.padStage (H W : Nat) (x : Tensor) : Tensor :=
  x.fpad2 0 ((8 - W % 8) % 8) 0 ((8 - H % 8) % 8)

/-- Lines 17-23: `self.proj`, three stride-2 kernel-6 padding-2 convolutions
with ReLU between. -/
def PatchEmbed.proj (m : PatchEmbedModule) (x : Tensor) : Except PyErr Tensor := do
  let x1 ← Tensor.conv2d m.in_chans (m.embed_dim / 4) 6 2 2 m.conv1W m.conv1B x
  let x2 ← Tensor.conv2d (m.embed_dim / 4) (m.embed_dim / 2) 6 2 2 m.conv2W m.conv2B
    (Tensor.reluT x1)
  Tensor.conv2d (m.embed_dim / 2) m.embed_dim 6 2 2 m.conv3W m.conv3B (Tensor.reluT x2)

/-- Lines 41-55: everything from reading `out_size` onwards.  The first
statement is the five-argument `coords_grid` call. -/
def PatchEmbed.afterProj (m : PatchEmbedModule) (B : Nat) (xproj : Tensor) :
    Except PyErr (Tensor × (Nat × Nat)) :=
  match xproj.shape with
  | [_, _, oh, ow] => do
    let pc ← coords_grid_call [.nat B, .nat oh, .nat ow, .device, .dtype]
    let patch_coord := Tensor.addScalarT 4 (Tensor.scaleT 8 pc)
    let pc2 ← liftO (patch_coord.viewInfer [B, 2] [])
    let pc3 := pc2.permute [0, 2, 1]
    let enc := LinearPositionEmbeddingSine m.sinF m.cosF m.freqF pc3 m.embed_dim
    let enc2 := enc.permute [0, 2, 1]
    let enc3 ← liftO (enc2.viewInfer [B] [oh, ow])
    let x_pe := Tensor.catDim1 xproj enc3
    let f1 ← Tensor.conv2d (m.embed_dim * 2) (m.embed_dim * 2) 1 1 0
      (fun o c _ _ => m.ffn1W o c) m.ffn1B x_pe
    let f2 ← Tensor.conv2d (m.embed_dim * 2) (m.embed_dim * 2) 1 1 0
      (fun o c _ _ => m.ffn2W o c) m.ffn2B (Tensor.reluT f1)
    let fl ← liftO (f2.reshape [B, m.embed_dim * 2, oh * ow])
    let tr := fl.permute [0, 2, 1]
    pure (Tensor.layerNormLast m.normW m.normB m.rsqrtF tr, (oh, ow))
  | _ => .error .runtimeError

def PatchEmbed.forwardBody (m : PatchEmbedModule) (B H W : Nat) (x : Tensor) :
    Except PyErr (Tensor × (Nat × Nat)) := do
  let xproj ← PatchEmbed.proj m (PatchEmbed.padStage H W x)
  PatchEmbed.afterProj m B xproj

def PatchEmbed.forward (m : PatchEmbedModule) (x : Tensor) :
    Except PyErr (Tensor × (Nat × Nat)) :=
  match x.shape with
  | [B, _, H, W] => PatchEmbed.forwardBody m B H W x
  | _ => .error .valueError

/-! ## LocallyGroupedAttnRPEContext.forward (src/core/twins.py, lines 77-128)

Translated line by line; the `coords_grid` call at line 107 passes five
positional arguments, so the forward raises `TypeError` once the preceding
view/pad/reshape plumbing has succeeded. -/

def LocallyGroupedAttnRPEContext.forwardBody (m : LGModule) (B N C Bc H W : Nat)
    (x context : Tensor) : Except PyErr Tensor := do
  let C_qk := C + m.vert_c_dim
  let ctx1 := context.repeatDim0 (B / Bc)
  let ctx2 ← liftO (ctx1.viewInfer [B] [H * W])
  let ctx3 := ctx2.permute [0, 2, 1]
  let ctx4 := Tensor.linearLast 256 m.vert_c_dim m.w.context_projW m.w.context_projB ctx3
  let ctx5 ← liftO (ctx4.viewInfer [B, H, W] [])
  let xv ← liftO (x.reshape [B, H, W, C])
  let x_qk := Tensor.catLast xv ctx5
  let pad_r := (m.ws - W % m.ws) % m.ws
  let pad_b := (m.ws - H % m.ws) % m.ws
  let xp := xv.fpad3 0 0 0 pad_r 0 pad_b
  let xqkp := x_qk.fpad3 0 0 0 pad_r 0 pad_b
  let hdiv := (H + pad_b) / m.ws
  let wdiv := (W + pad_r) / m.ws
  let x6p ← liftO (xp.reshape [B, hdiv, m.ws, wdiv, m.ws, C])
  let x6 := x6p.permute [0, 1, 3, 2, 4, 5]
  let xqk6p ← liftO (xqkp.reshape [B, hdiv, m.ws, wdiv, m.ws, C_qk])
  let xqk6 := xqk6p.permute [0, 1, 3, 2, 4, 5]
  let v0 := Tensor.linearLast C C m.w.vW m.w.vB x6
  let v1 ← liftO (v0.reshape [B, hdiv * wdiv, m.ws * m.ws, 1, m.num_heads, C / m.num_heads])
  let v := (v1.permute [3, 0, 1, 4, 2, 5]).select0
  let coords ← coords_grid_call [.nat B, .nat m.ws, .nat m.ws, .device, .dtype]
  let coords2 ← liftO (coords.viewInfer [B, 2] [])
  let coords3 := coords2.permute [0, 2, 1]
  let enc := LinearPositionEmbeddingSine m.w.sinF m.w.cosF m.w.freqF coords3 C_qk
  let enc4 ← liftO (enc.reshape [B, m.ws, m.ws, C_qk])
  let enc6 ← liftO (enc4.reshape [B, 1, 1, m.ws, m.ws, C_qk])
  let xqk7 := Tensor.addBc xqk6 enc6
  let q0 := Tensor.linearLast C_qk C m.w.qW m.w.qB xqk7
  let q1 ← liftO (q0.reshape [B, hdiv * wdiv, m.ws * m.ws, 1, m.num_heads, C / m.num_heads])
  let q := (q1.permute [3, 0, 1, 4, 2, 5]).select0
  let k0 := Tensor.linearLast C_qk C m.w.kW m.w.kB xqk7
  let k1 ← liftO (k0.reshape [B, hdiv * wdiv, m.ws * m.ws, 1, m.num_heads, C / m.num_heads])
  let k := (k1.permute [3, 0, 1, 4, 2, 5]).select0
  let attn := Tensor.softmaxLast m.w.expF
    (Tensor.scaleT m.w.scale (Tensor.matLast q (Tensor.transposeLast2 k)))
  let att2 := (Tensor.matLast attn v).permute [0, 1, 3, 2, 4]
  let att3 ← liftO (att2.reshape [B, hdiv, wdiv, m.ws, m.ws, C])
  let x8 ← liftO ((att3.permute [0, 1, 3, 2, 4, 5]).reshape [B, hdiv * m.ws, wdiv * m.ws, C])
  let x9 := if 0 < pad_r ∨ 0 < pad_b then x8.crop2 H W else x8
  let x10 ← liftO (x9.reshape [B, N, C])
  pure (Tensor.linearLast C C m.w.projW m.w.projB x10)

def LocallyGroupedAttnRPEContext.forward (m : LGModule) (x : Tensor) (size : Nat × Nat)
    (context : Tensor) : Except PyErr Tensor :=
  match x.shape, context.shape with
  | [B, N, C], [Bc, _, _, _] =>
    LocallyGroupedAttnRPEContext.forwardBody m B N C Bc size.1 size.2 x context
  | _, _ => .error .valueError

/-! ## GlobalSubSampleAttnRPEContext.forward (src/core/twins.py, lines 160-216)

The `coords_grid` call at line 182 passes five positional arguments, raising
`TypeError`; the later `self.sr_key` access (line 189) would raise
`AttributeError` for `sr_ratio = 1` modules, whose constructor never creates
that attribute. -/

def GlobalSubSampleAttnRPEContext.forwardBody (m : GSSModule) (B N C Bc H W : Nat)
    (x context : Tensor) : Except PyErr Tensor := do
  let C_qk := C + m.vert_c_dim
  let ctx1 := context.repeatDim0 (B / Bc)
  let ctx2 ← liftO (ctx1.viewInfer [B] [H * W])
  let ctx3 := ctx2.permute [0, 2, 1]
  let ctx4 := Tensor.linearLast 256 m.vert_c_dim m.w.context_projW m.w.context_projB ctx3
  let ctx5 ← liftO (ctx4.viewInfer [B, H, W] [])
  let xv ← liftO (x.reshape [B, H, W, C])
  let x_qk := Tensor.catLast xv ctx5
  let pad_r := (m.sr_ratio - W % m.sr_ratio) % m.sr_ratio
  let pad_b := (m.sr_ratio - H % m.sr_ratio) % m.sr_ratio
  let xp := xv.fpad3 0 0 0 pad_r 0 pad_b
  let xqkp := x_qk.fpad3 0 0 0 pad_r 0 pad_b
  let Hp := H + pad_b
  let Wp := W + pad_r
  let x2 ← liftO (xp.viewInfer [B] [C])
  let xqk2 ← liftO (xqkp.viewInfer [B] [C_qk])
  let coords ← coords_grid_call [.nat B, .nat Hp, .nat Wp, .device, .dtype]
  let coords2 ← liftO (coords.viewInfer [B, 2] [])
  let coords3 := coords2.permute [0, 2, 1]
  let enc := LinearPositionEmbeddingSine m.w.sinF m.w.cosF m.w.freqF coords3 C_qk
  let q0 := Tensor.linearLast C_qk C m.w.qW m.w.qB (Tensor.addT xqk2 enc)
  let q1 ← liftO (q0.reshape [B, Hp * Wp, m.num_heads, C / m.num_heads])
  let q := q1.permute [0, 2, 1, 3]
  let hasSr ← m.read_sr_key
  let kvSrc ← if hasSr then do
      let xc ← liftO ((x2.permute [0, 2, 1]).reshape [B, C, Hp, Wp])
      let xqkc ← liftO ((xqk2.permute [0, 2, 1]).reshape [B, C_qk, Hp, Wp])
      let xs ← Tensor.conv2d C C m.sr_ratio m.sr_ratio 0 m.w.srValW m.w.srValB xc
      let xs2 ← liftO (xs.viewInfer [B, C] [])
      let xqs ← Tensor.conv2d C_qk C m.sr_ratio m.sr_ratio 0 m.w.srKeyW m.w.srKeyB xqkc
      let xqs2 ← liftO (xqs.viewInfer [B, C] [])
      let xn := Tensor.layerNormLast m.w.normW m.w.normB m.w.rsqrtF (xs2.permute [0, 2, 1])
      let xqn := Tensor.layerNormLast m.w.normW m.w.normB m.w.rsqrtF (xqs2.permute [0, 2, 1])
      pure (xn, xqn)
    else pure (x2, xqk2)
  let coordsB ← coords_grid_call
    [.nat B, .nat (Hp / m.sr_ratio), .nat (Wp / m.sr_ratio), .device, .dtype]
  let coordsB2 ← liftO (coordsB.viewInfer [B, 2] [])
  let coordsB3 := Tensor.scaleT (m.sr_ratio : ℚ) (coordsB2.permute [0, 2, 1])
  let encK := LinearPositionEmbeddingSine m.w.sinF m.w.cosF m.w.freqF coordsB3 C
  let k0 := Tensor.linearLast C C m.w.kW m.w.kB (Tensor.addT kvSrc.2 encK)
  let k1 ← liftO (k0.reshape
    [B, (Hp / m.sr_ratio) * (Wp / m.sr_ratio), m.num_heads, C / m.num_heads])
  let k := k1.permute [0, 2, 1, 3]
  let v0 := Tensor.linearLast C C m.w.vW m.w.vB kvSrc.1
  let v1 ← liftO (v0.reshape
    [B, (Hp / m.sr_ratio) * (Wp / m.sr_ratio), m.num_heads, C / m.num_heads])
  let v := v1.permute [0, 2, 1, 3]
  let attn := Tensor.softmaxLast m.w.expF
    (Tensor.scaleT m.w.scale (Tensor.matLast q (Tensor.transposeLast2 k)))
  let xa ← liftO (((Tensor.matLast attn v).permute [0, 2, 1, 3]).reshape [B, Hp, Wp, C])
  let xa2 := if 0 < pad_r ∨ 0 < pad_b then xa.crop2 H W else xa
  let xa3 ← liftO (xa2.reshape [B, N, C])
  pure (Tensor.linearLast C C m.w.projW m.w.projB xa3)

def GlobalSubSampleAttnRPEContext.forward (m : GSSModule) (x : Tensor) (size : Nat × Nat)
    (context : Tensor) : Except PyErr Tensor :=
  match x.shape, context.shape with
  | [B, N, C], [Bc, _, _, _] =>
    GlobalSubSampleAttnRPEContext.forwardBody m B N C Bc size.1 size.2 x context
  | _, _ => .error .valueError


/-! ## Reduction lemmas for the fallible forward passes -/

theorem exc_ok_bind {α β : Type} (a : α) (f : α → Except PyErr β) :
    (Except.ok a : Except PyErr α) >>= f = f a := rfl

theorem exc_err_bind {α β : Type} (e : PyErr) (f : α → Except PyErr β) :
    (Except.error e : Except PyErr α) >>= f = Except.error e := rfl

theorem conv2d_ok {x : Tensor} {b c h w : Nat} (inC outC k s p : Nat)
    (W : Nat → Nat → Nat → Nat → ℚ) (bv : Nat → ℚ)
    (hx : x.shape = [b, c, h, w]) (h1 : c = inC) (h2 : k ≤ h + 2 * p) (h3 : k ≤ w + 2 * p) :
    Tensor.conv2d inC outC k s p W bv x = .ok (Tensor.convKernel outC k s p W bv b c h w x) := by
  unfold Tensor.conv2d
  rw [hx]
  show (if c = inC ∧ k ≤ h + 2 * p ∧ k ≤ w + 2 * p then
      Except.ok (Tensor.convKernel outC k s p W bv b c h w x)
    else Except.error PyErr.runtimeError) = _
  rw [if_pos ⟨h1, h2, h3⟩]

theorem liftO_reshape_ok {t : Tensor} {s : List Nat} (hprod : s.prod = t.shape.prod) :
    liftO (t.reshape s) = .ok ⟨s, t.data⟩ := by
  rw [Tensor.reshape, if_pos hprod]
  rfl

theorem liftO_viewInfer_ok {t : Tensor} {pre post : List Nat} (mVal : Nat)
    (hpos : 0 < pre.prod * post.prod)
    (hm : t.numel = pre.prod * post.prod * mVal) :
    liftO (t.viewInfer pre post) = .ok ⟨pre ++ [mVal] ++ post, t.data⟩ := by
  simp only [Tensor.viewInfer]
  have hdiv : t.numel / (pre.prod * post.prod) = mVal := by
    rw [hm]
    exact Nat.mul_div_cancel_left mVal hpos
  rw [hdiv, if_pos hm.symm]
  rfl

theorem fpad2_shape {t : Tensor} {b c h w : Nat} (pl pr pt pb : Nat)
    (ht : t.shape = [b, c, h, w]) :
    (t.fpad2 pl pr pt pb).shape = [b, c, pt + h + pb, pl + w + pr] := by
  unfold Tensor.fpad2
  rw [ht]
  rfl

theorem fpad3_shape {t : Tensor} {b h w c : Nat} (pcl pcr pl pr pt pb : Nat)
    (ht : t.shape = [b, h, w, c]) :
    (t.fpad3 pcl pcr pl pr pt pb).shape = [b, pt + h + pb, pl + w + pr, pcl + c + pcr] := by
  unfold Tensor.fpad3
  rw [ht]
  rfl

theorem repeatDim0_shape {t : Tensor} {d0 : Nat} {rest : List Nat}
    (ht : t.shape = d0 :: rest) (r : Nat) :
    (t.repeatDim0 r).shape = d0 * r :: rest := by
  unfold Tensor.repeatDim0
  rw [ht]
  rfl

/-- `n + (ws - n % ws) % ws` is the next multiple of `ws`. -/
theorem pad_to_multiple (ws n : Nat) (hws : 0 < ws) : ws ∣ (n + (ws - n % ws) % ws) := by
  have h1 : n % ws < ws := Nat.mod_lt _ hws
  by_cases h0 : n % ws = 0
  · have hz : (ws - n % ws) % ws = 0 := by
      rw [h0, Nat.sub_zero, Nat.mod_self]
    rw [hz, Nat.add_zero]
    exact Nat.dvd_of_mod_eq_zero h0
  · have h2 : (ws - n % ws) % ws = ws - n % ws := Nat.mod_eq_of_lt (by omega)
    rw [h2]
    have h3 := Nat.div_add_mod n ws
    have h4 : n + (ws - n % ws) = ws * (n / ws) + ws := by omega
    rw [h4]
    exact ⟨n / ws + 1, by ring⟩

/-- Once the three-convolution `proj` is reached with a padded input of
spatial size at least 8x8, it succeeds, and its output grid is the
composition of the three stride-2 size formulas. -/
theorem PatchEmbed.proj_ok (m : PatchEmbedModule) (b h w : Nat) (x : Tensor)
    (hx : x.shape = [b, m.in_chans, h, w]) (h8 : 8 ≤ h) (w8 : 8 ≤ w) :
    ∃ y : Tensor, PatchEmbed.proj m x = .ok y ∧
      y.shape = [b, m.embed_dim,
        ((((h + 2 * 2 - 6) / 2 + 1 + 2 * 2 - 6) / 2 + 1) + 2 * 2 - 6) / 2 + 1,
        ((((w + 2 * 2 - 6) / 2 + 1 + 2 * 2 - 6) / 2 + 1) + 2 * 2 - 6) / 2 + 1] := by
  unfold PatchEmbed.proj
  rw [conv2d_ok m.in_chans (m.embed_dim / 4) 6 2 2 m.conv1W m.conv1B hx rfl
    (by omega) (by omega), exc_ok_bind]
  rw [conv2d_ok (m.embed_dim / 4) (m.embed_dim / 2) 6 2 2 m.conv2W m.conv2B rfl rfl
    (by omega) (by omega), exc_ok_bind]
  rw [conv2d_ok (m.embed_dim / 2) m.embed_dim 6 2 2 m.conv3W m.conv3B rfl rfl
    (by omega) (by omega)]
  exact ⟨_, rfl, rfl⟩

/-- Whatever tensor `proj` produced, `afterProj` fails immediately: its first
statement calls `coords_grid` with five positional arguments. -/
theorem PatchEmbed.afterProj_typeError (m : PatchEmbedModule) (B : Nat) (xproj : Tensor)
    (b2 c2 oh ow : Nat) (hsh : xproj.shape = [b2, c2, oh, ow]) :
    PatchEmbed.afterProj m B xproj = .error .typeError := by
  unfold PatchEmbed.afterProj
  rw [hsh]
  rfl

/-- `PatchEmbed.forward` raises `TypeError` on every well-shaped input: the
padding and the three convolutions succeed, then the five-argument
`coords_grid` call fails. -/
theorem patchEmbed_forward_typeError (m : PatchEmbedModule) (B H W : Nat) (x : Tensor)
    (hx : x.shape = [B, m.in_chans, H, W]) (hH : 0 < H) (hW : 0 < W) :
    PatchEmbed.forward m x = .error .typeError := by
  have hun : PatchEmbed.forward m x = PatchEmbed.forwardBody m B H W x := by
    unfold PatchEmbed.forward
    rw [hx]
  rw [hun]
  unfold PatchEmbed.forwardBody
  have hpadshape : (PatchEmbed.padStage H W x).shape
      = [B, m.in_chans, H + (8 - H % 8) % 8, W + (8 - W % 8) % 8] := by
    have := fpad2_shape 0 ((8 - W % 8) % 8) 0 ((8 - H % 8) % 8) hx
    unfold PatchEmbed.padStage
    simpa using this
  obtain ⟨y, hy, hys⟩ := PatchEmbed.proj_ok m B (H + (8 - H % 8) % 8) (W + (8 - W % 8) % 8)
    (PatchEmbed.padStage H W x) hpadshape (by omega) (by omega)
  rw [hy, exc_ok_bind]
  exact PatchEmbed.afterProj_typeError m B y _ _ _ _ hys


/-- `LocallyGroupedAttnRPEContext.forward` raises `TypeError` on every
well-shaped input: all the context/view/pad/window plumbing up to line 107
succeeds, then `coords_grid(B, ws, ws, x.device, x.dtype)` fails. -/
theorem lg_forward_typeError (m : LGModule) (B N C Bc H W : Nat) (x context : Tensor)
    (hx : x.shape = [B, N, C]) (hN : N = H * W)
    (hctx : context.shape = [Bc, 256, H, W])
    (hdvd : Bc ∣ B) (hB : 0 < B) (hH : 0 < H) (hW : 0 < W)
    (hws : 0 < m.ws) (hnh0 : 0 < m.num_heads) (hnh : m.num_heads ∣ C) :
    LocallyGroupedAttnRPEContext.forward m x (H, W) context = .error .typeError := by
  obtain ⟨dH, hdH⟩ := pad_to_multiple m.ws H hws
  obtain ⟨dW, hdW⟩ := pad_to_multiple m.ws W hws
  obtain ⟨cq, hcq⟩ := hnh
  have hdivH : (H + (m.ws - H % m.ws) % m.ws) / m.ws = dH := by
    rw [hdH]
    exact Nat.mul_div_cancel_left dH hws
  have hdivW : (W + (m.ws - W % m.ws) % m.ws) / m.ws = dW := by
    rw [hdW]
    exact Nat.mul_div_cancel_left dW hws
  have hdivC : C / m.num_heads = cq := by
    rw [hcq]
    exact Nat.mul_div_cancel_left cq hnh0
  have hun : LocallyGroupedAttnRPEContext.forward m x (H, W) context
      = LocallyGroupedAttnRPEContext.forwardBody m B N C Bc H W x context := by
    unfold LocallyGroupedAttnRPEContext.forward
    rw [hx, hctx]
  rw [hun]
  simp only [LocallyGroupedAttnRPEContext.forwardBody]
  have hctx1 : (context.repeatDim0 (B / Bc)).shape = [B, 256, H, W] := by
    rw [repeatDim0_shape hctx (B / Bc), Nat.mul_div_cancel' hdvd]
  rw [liftO_viewInfer_ok 256
    (by
      show 0 < B * 1 * (H * W * 1)
      exact Nat.mul_pos (Nat.mul_pos hB Nat.one_pos)
        (Nat.mul_pos (Nat.mul_pos hH hW) Nat.one_pos))
    (by
      show (context.repeatDim0 (B / Bc)).shape.prod = B * 1 * (H * W * 1) * 256
      rw [hctx1]
      show B * (256 * (H * (W * 1))) = B * 1 * (H * W * 1) * 256
      ring), exc_ok_bind]
  rw [liftO_viewInfer_ok m.vert_c_dim
    (by
      show 0 < B * (H * (W * 1)) * 1
      exact Nat.mul_pos
        (Nat.mul_pos hB (Nat.mul_pos hH (Nat.mul_pos hW Nat.one_pos))) Nat.one_pos)
    (by
      show B * (H * W * (m.vert_c_dim * 1)) = B * (H * (W * 1)) * 1 * m.vert_c_dim
      ring), exc_ok_bind]
  rw [liftO_reshape_ok (by
      rw [hx, hN]
      show B * (H * (W * (C * 1))) = B * (H * W * (C * 1))
      ring), exc_ok_bind]
  rw [liftO_reshape_ok (by
      show B * ((H + (m.ws - H % m.ws) % m.ws) / m.ws * (m.ws *
          ((W + (m.ws - W % m.ws) % m.ws) / m.ws * (m.ws * (C * 1)))))
        = B * ((0 + H + (m.ws - H % m.ws) % m.ws) *
            ((0 + W + (m.ws - W % m.ws) % m.ws) * ((0 + C + 0) * 1)))
      simp only [Nat.zero_add, Nat.add_zero]
      rw [hdivH, hdivW, hdH, hdW]
      ring), exc_ok_bind]
  rw [liftO_reshape_ok (by
      show B * ((H + (m.ws - H % m.ws) % m.ws) / m.ws * (m.ws *
          ((W + (m.ws - W % m.ws) % m.ws) / m.ws * (m.ws * ((C + m.vert_c_dim) * 1)))))
        = B * ((0 + H + (m.ws - H % m.ws) % m.ws) *
            ((0 + W + (m.ws - W % m.ws) % m.ws) * ((0 + (C + m.vert_c_dim) + 0) * 1)))
      simp only [Nat.zero_add, Nat.add_zero]
      rw [hdivH, hdivW, hdH, hdW]
      ring), exc_ok_bind]
  rw [liftO_reshape_ok (by
      show B * ((H + (m.ws - H % m.ws) % m.ws) / m.ws * ((W + (m.ws - W % m.ws) % m.ws) / m.ws) *
          (m.ws * m.ws * (1 * (m.num_heads * (C / m.num_heads * 1)))))
        = B * ((H + (m.ws - H % m.ws) % m.ws) / m.ws * ((W + (m.ws - W % m.ws) % m.ws) / m.ws *
            (m.ws * (m.ws * (C * 1)))))
      rw [hdivH, hdivW, hdivC, hcq]
      ring), exc_ok_bind]
  rw [show coords_grid_call [PyVal.nat B, PyVal.nat m.ws, PyVal.nat m.ws, PyVal.device,
      PyVal.dtype] = Except.error PyErr.typeError from rfl, exc_err_bind]

/-- `GlobalSubSampleAttnRPEContext.forward` raises `TypeError` on every
well-shaped input: the plumbing up to line 182 succeeds, then
`coords_grid(B, *padded_size, x.device, x.dtype)` fails — before the
`sr_key` attribute is ever read. -/
theorem gss_forward_typeError (m : GSSModule) (B N C Bc H W : Nat) (x context : Tensor)
    (hx : x.shape = [B, N, C]) (hN : N = H * W)
    (hctx : context.shape = [Bc, 256, H, W])
    (hdvd : Bc ∣ B) (hB : 0 < B) (hH : 0 < H) (hW : 0 < W) (hC : 0 < C) :
    GlobalSubSampleAttnRPEContext.forward m x (H, W) context = .error .typeError := by
  have hun : GlobalSubSampleAttnRPEContext.forward m x (H, W) context
      = GlobalSubSampleAttnRPEContext.forwardBody m B N C Bc H W x context := by
    unfold GlobalSubSampleAttnRPEContext.forward
    rw [hx, hctx]
  rw [hun]
  simp only [GlobalSubSampleAttnRPEContext.forwardBody]
  have hctx1 : (context.repeatDim0 (B / Bc)).shape = [B, 256, H, W] := by
    rw [repeatDim0_shape hctx (B / Bc), Nat.mul_div_cancel' hdvd]
  rw [liftO_viewInfer_ok 256
    (by
      show 0 < B * 1 * (H * W * 1)
      exact Nat.mul_pos (Nat.mul_pos hB Nat.one_pos)
        (Nat.mul_pos (Nat.mul_pos hH hW) Nat.one_pos))
    (by
      show (context.repeatDim0 (B / Bc)).shape.prod = B * 1 * (H * W * 1) * 256
      rw [hctx1]
      show B * (256 * (H * (W * 1))) = B * 1 * (H * W * 1) * 256
      ring), exc_ok_bind]
  rw [liftO_viewInfer_ok m.vert_c_dim
    (by
      show 0 < B * (H * (W * 1)) * 1
      exact Nat.mul_pos
        (Nat.mul_pos hB (Nat.mul_pos hH (Nat.mul_pos hW Nat.one_pos))) Nat.one_pos)
    (by
      show B * (H * W * (m.vert_c_dim * 1)) = B * (H * (W * 1)) * 1 * m.vert_c_dim
      ring), exc_ok_bind]
  rw [liftO_reshape_ok (by
      rw [hx, hN]
      show B * (H * (W * (C * 1))) = B * (H * W * (C * 1))
      ring), exc_ok_bind]
  rw [liftO_viewInfer_ok
    ((H + (m.sr_ratio - H % m.sr_ratio) % m.sr_ratio) *
      (W + (m.sr_ratio - W % m.sr_ratio) % m.sr_ratio))
    (by
      show 0 < B * 1 * (C * 1)
      exact Nat.mul_pos (Nat.mul_pos hB Nat.one_pos) (Nat.mul_pos hC Nat.one_pos))
    (by
      show B * ((0 + H + (m.sr_ratio - H % m.sr_ratio) % m.sr_ratio) *
          ((0 + W + (m.sr_ratio - W % m.sr_ratio) % m.sr_ratio) * ((0 + C + 0) * 1)))
        = B * 1 * (C * 1) *
          ((H + (m.sr_ratio - H % m.sr_ratio) % m.sr_ratio) *
            (W + (m.sr_ratio - W % m.sr_ratio) % m.sr_ratio))
      simp only [Nat.zero_add, Nat.add_zero]
      ring), exc_ok_bind]
  rw [liftO_viewInfer_ok
    ((H + (m.sr_ratio - H % m.sr_ratio) % m.sr_ratio) *
      (W + (m.sr_ratio - W % m.sr_ratio) % m.sr_ratio))
    (by
      show 0 < B * 1 * ((C + m.vert_c_dim) * 1)
      exact Nat.mul_pos (Nat.mul_pos hB Nat.one_pos)
        (Nat.mul_pos (by omega) Nat.one_pos))
    (by
      show B * ((0 + H + (m.sr_ratio - H % m.sr_ratio) % m.sr_ratio) *
          ((0 + W + (m.sr_ratio - W % m.sr_ratio) % m.sr_ratio) * ((0 + (C + m.vert_c_dim) + 0) * 1)))
        = B * 1 * ((C + m.vert_c_dim) * 1) *
          ((H + (m.sr_ratio - H % m.sr_ratio) % m.sr_ratio) *
            (W + (m.sr_ratio - W % m.sr_ratio) % m.sr_ratio))
      simp only [Nat.zero_add, Nat.add_zero]
      ring), exc_ok_bind]
  rw [show coords_grid_call [PyVal.nat B,
      PyVal.nat (H + (m.sr_ratio - H % m.sr_ratio) % m.sr_ratio),
      PyVal.nat (W + (m.sr_ratio - W % m.sr_ratio) % m.sr_ratio), PyVal.device,
      PyVal.dtype] = Except.error PyErr.typeError from rfl, exc_err_bind]


/-! ## Rank-3 token tensors and the encoder.py attention layers

`SelfAttentionLayer.forward` and `CrossAttentionLayer.forward` only ever see
rank-3 `[batch, tokens, channels]` tensors, modelled here with explicit
dimension fields.  `MultiHeadAttention` and `BroadMultiHeadAttention` live in
`core/attention.py`, which is not part of the sources, and are modelled from
the spec. -/

structure T3 where
  d0 : Nat
  d1 : Nat
  d2 : Nat
  data : Nat → Nat → Nat → ℚ

namespace T3

/-- `nn.Linear(inC, outC)` along the channel axis. -/
def linear (inC outC : Nat) (W : Nat → Nat → ℚ) (bv : Nat → ℚ) (t : T3) : T3 :=
  ⟨t.d0, t.d1, outC, fun b n o =>
    bv o + ∑ c ∈ Finset.range inC, W o c * t.data b n c⟩

/-- `nn.LayerNorm` over the channel axis (`eps = 1e-5`). -/
def layerNorm (γ β : Nat → ℚ) (rsqrtF : ℚ → ℚ) (t : T3) : T3 :=
  ⟨t.d0, t.d1, t.d2, fun b n c =>
    let μ := (∑ e ∈ Finset.range t.d2, t.data b n e) / t.d2
    let va := (∑ e ∈ Finset.range t.d2, (t.data b n e - μ) ^ 2) / t.d2
    γ c * ((t.data b n c - μ) * rsqrtF (va + 1 / 100000)) + β c⟩

/-- Broadcasting `+` (size-1 axes are repeated, as in torch). -/
def addB (a b : T3) : T3 :=
  ⟨max a.d0 b.d0, max a.d1 b.d1, max a.d2 b.d2, fun i n c =>
    a.data (i % a.d0) (n % a.d1) (c % a.d2) + b.data (i % b.d0) (n % b.d1) (c % b.d2)⟩

/-- Pointwise `nn.GELU`, parametrised by the primitive. -/
def gelu (geluF : ℚ → ℚ) (t : T3) : T3 := ⟨t.d0, t.d1, t.d2, fun b n c => geluF (t.data b n c)⟩

end T3

/-- Modelled from the spec: `MultiHeadAttention` of core/attention.py (absent
from src/) — scaled dot-product attention with `num_heads` contiguous channel
groups, weights softmaxed over the keys, applied to the values. -/
def MultiHeadAttention (num_heads : Nat) (scale : ℚ) (expF : ℚ → ℚ) (q k v : T3) : T3 :=
  let hd := q.d2 / num_heads
  ⟨q.d0, q.d1, v.d2, fun b i c =>
    let h := c / hd
    ∑ j ∈ Finset.range k.d1,
      expF ((∑ e ∈ Finset.range hd, q.data b i (h * hd + e) * k.data b j (h * hd + e)) * scale) /
        (∑ jp ∈ Finset.range k.d1,
          expF ((∑ e ∈ Finset.range hd, q.data b i (h * hd + e) * k.data b jp (h * hd + e)) * scale))
        * v.data b j c⟩

/-- Modelled from the spec: `BroadMultiHeadAttention` of core/attention.py
(absent from src/) — the learned latent queries (batch 1) are broadcast to the
key/value batch. -/
def BroadMultiHeadAttention (num_heads : Nat) (scale : ℚ) (expF : ℚ → ℚ) (q k v : T3) : T3 :=
  let hd := q.d2 / num_heads
  ⟨k.d0, q.d1, v.d2, fun b i c =>
    let h := c / hd
    ∑ j ∈ Finset.range k.d1,
      expF ((∑ e ∈ Finset.range hd,
          q.data (b % q.d0) i (h * hd + e) * k.data b j (h * hd + e)) * scale) /
        (∑ jp ∈ Finset.range k.d1,
          expF ((∑ e ∈ Finset.range hd,
            q.data (b % q.d0) i (h * hd + e) * k.data b jp (h * hd + e)) * scale))
        * v.data b j c⟩

/-- Learned parameters of a `SelfAttentionLayer` (encoder.py, lines 97-122). -/
structure SALParams where
  dim : Nat
  num_heads : Nat
  norm1W : Nat → ℚ
  norm1B : Nat → ℚ
  norm2W : Nat → ℚ
  norm2B : Nat → ℚ
  qW : Nat → Nat → ℚ
  qB : Nat → ℚ
  kW : Nat → Nat → ℚ
  kB : Nat → ℚ
  vW : Nat → Nat → ℚ
  vB : Nat → ℚ
  projW : Nat → Nat → ℚ
  projB : Nat → ℚ
  f1W : Nat → Nat → ℚ
  f1B : Nat → ℚ
  f2W : Nat → Nat → ℚ
  f2B : Nat → ℚ
  scale : ℚ
  expF : ℚ → ℚ
  rsqrtF : ℚ → ℚ
  geluF : ℚ → ℚ

/-- `SelfAttentionLayer.forward` (encoder.py, lines 124-140): pre-norm,
q/k/v projections, multi-head attention, projection, residual, then the
feed-forward block with its own pre-norm and residual (dropout and drop-path
are identities in eval mode). -/
def SelfAttentionLayer.forward (p : SALParams) (x : T3) : T3 :=
  let short_cut := x
  let xn := T3.layerNorm p.norm1W p.norm1B p.rsqrtF x
  let q := T3.linear p.dim p.dim p.qW p.qB xn
  let k := T3.linear p.dim p.dim p.kW p.kB xn
  let v := T3.linear p.dim p.dim p.vW p.vB xn
  let a := MultiHeadAttention p.num_heads p.scale p.expF q k v
  let x2 := T3.addB short_cut (T3.linear p.dim p.dim p.projW p.projB a)
  T3.addB x2 (T3.linear p.dim p.dim p.f2W p.f2B
    (T3.gelu p.geluF (T3.linear p.dim p.dim p.f1W p.f1B
      (T3.layerNorm p.norm2W p.norm2B p.rsqrtF x2))))

/-- Learned parameters of a `CrossAttentionLayer` (encoder.py, lines 150-178). -/
structure CALParams where
  qk_dim : Nat
  v_dim : Nat
  query_token_dim : Nat
  tgt_token_dim : Nat
  num_heads : Nat
  norm1W : Nat → ℚ
  norm1B : Nat → ℚ
  norm2W : Nat → ℚ
  norm2B : Nat → ℚ
  qW : Nat → Nat → ℚ
  qB : Nat → ℚ
  kW : Nat → Nat → ℚ
  kB : Nat → ℚ
  vW : Nat → Nat → ℚ
  vB : Nat → ℚ
  projW : Nat → Nat → ℚ
  projB : Nat → ℚ
  f1W : Nat → Nat → ℚ
  f1B : Nat → ℚ
  f2W : Nat → Nat → ℚ
  f2B : Nat → ℚ
  scale : ℚ
  expF : ℚ → ℚ
  rsqrtF : ℚ → ℚ
  geluF : ℚ → ℚ

/-- `CrossAttentionLayer.forward` (encoder.py, lines 180-191): the normalised
query is projected to `qk_dim`, the target tokens to `qk_dim` (K) and `v_dim`
(V); broadcast multi-head attention, projection back to the query dimension,
residual, then the feed-forward block. -/
def CrossAttentionLayer.forward (p : CALParams) (query tgt_token : T3) : T3 :=
  let short_cut := query
  let qn := T3.layerNorm p.norm1W p.norm1B p.rsqrtF query
  let q := T3.linear p.query_token_dim p.qk_dim p.qW p.qB qn
  let k := T3.linear p.tgt_token_dim p.qk_dim p.kW p.kB tgt_token
  let v := T3.linear p.tgt_token_dim p.v_dim p.vW p.vB tgt_token
  let a := BroadMultiHeadAttention p.num_heads p.scale p.expF q k v
  let x := T3.addB short_cut (T3.linear p.v_dim p.query_token_dim p.projW p.projB a)
  T3.addB x (T3.linear p.query_token_dim p.query_token_dim p.f2W p.f2B
    (T3.gelu p.geluF (T3.linear p.query_token_dim p.query_token_dim p.f1W p.f1B
      (T3.layerNorm p.norm2W p.norm2B p.rsqrtF x))))

/-- `self.latent_tokens = nn.Parameter(torch.randn(1, cost_latent_token_num,
cost_latent_dim))` (encoder.py, line 206), with abstract learned values. -/
def CostPerceiverEncoder.latentTokens (cfg : Config) (w : Nat → Nat → ℚ) : T3 :=
  ⟨1, cfg.cost_latent_token_num, cfg.cost_latent_dim, fun _ n c => w n c⟩

@[simp] theorem T3.linear_d0 (inC outC : Nat) (W : Nat → Nat → ℚ) (bv : Nat → ℚ)
    (t : T3) : (T3.linear inC outC W bv t).d0 = t.d0 := rfl

@[simp] theorem T3.linear_d1 (inC outC : Nat) (W : Nat → Nat → ℚ) (bv : Nat → ℚ)
    (t : T3) : (T3.linear inC outC W bv t).d1 = t.d1 := rfl

@[simp] theorem T3.linear_d2 (inC outC : Nat) (W : Nat → Nat → ℚ) (bv : Nat → ℚ)
    (t : T3) : (T3.linear inC outC W bv t).d2 = outC := rfl

@[simp] theorem T3.layerNorm_d0 (γ β : Nat → ℚ) (r : ℚ → ℚ) (t : T3) :
    (T3.layerNorm γ β r t).d0 = t.d0 := rfl

@[simp] theorem T3.layerNorm_d1 (γ β : Nat → ℚ) (r : ℚ → ℚ) (t : T3) :
    (T3.layerNorm γ β r t).d1 = t.d1 := rfl

@[simp] theorem T3.layerNorm_d2 (γ β : Nat → ℚ) (r : ℚ → ℚ) (t : T3) :
    (T3.layerNorm γ β r t).d2 = t.d2 := rfl

@[simp] theorem T3.addB_d0 (a b : T3) : (T3.addB a b).d0 = max a.d0 b.d0 := rfl

@[simp] theorem T3.addB_d1 (a b : T3) : (T3.addB a b).d1 = max a.d1 b.d1 := rfl

@[simp] theorem T3.addB_d2 (a b : T3) : (T3.addB a b).d2 = max a.d2 b.d2 := rfl

@[simp] theorem T3.gelu_d0 (g : ℚ → ℚ) (t : T3) : (T3.gelu g t).d0 = t.d0 := rfl

@[simp] theorem T3.gelu_d1 (g : ℚ → ℚ) (t : T3) : (T3.gelu g t).d1 = t.d1 := rfl

@[simp] theorem T3.gelu_d2 (g : ℚ → ℚ) (t : T3) : (T3.gelu g t).d2 = t.d2 := rfl

@[simp] theorem MultiHeadAttention_d0 (nh : Nat) (s : ℚ) (e : ℚ → ℚ) (q k v : T3) :
    (MultiHeadAttention nh s e q k v).d0 = q.d0 := rfl

@[simp] theorem MultiHeadAttention_d1 (nh : Nat) (s : ℚ) (e : ℚ → ℚ) (q k v : T3) :
    (MultiHeadAttention nh s e q k v).d1 = q.d1 := rfl

@[simp] theorem MultiHeadAttention_d2 (nh : Nat) (s : ℚ) (e : ℚ → ℚ) (q k v : T3) :
    (MultiHeadAttention nh s e q k v).d2 = v.d2 := rfl

@[simp] theorem BroadMultiHeadAttention_d0 (nh : Nat) (s : ℚ) (e : ℚ → ℚ) (q k v : T3) :
    (BroadMultiHeadAttention nh s e q k v).d0 = k.d0 := rfl

@[simp] theorem BroadMultiHeadAttention_d1 (nh : Nat) (s : ℚ) (e : ℚ → ℚ) (q k v : T3) :
    (BroadMultiHeadAttention nh s e q k v).d1 = q.d1 := rfl

@[simp] theorem BroadMultiHeadAttention_d2 (nh : Nat) (s : ℚ) (e : ℚ → ℚ) (q k v : T3) :
    (BroadMultiHeadAttention nh s e q k v).d2 = v.d2 := rfl

@[simp] theorem latentTokens_d1 (cfg : Config) (w : Nat → Nat → ℚ) :
    (CostPerceiverEncoder.latentTokens cfg w).d1 = cfg.cost_latent_token_num := rfl


/-- Entry of `fpad2` inside the unpadded region: zero-padding never corrupts
in-bounds values. -/
theorem fpad2_entry {t : Tensor} {b c h w : Nat} (pl pr pt pb : Nat)
    (ht : t.shape = [b, c, h, w]) (bi ci i j : Nat)
    (hb : bi < b) (hc : ci < c) (hi : i < h) (hj : j < w) :
    (t.fpad2 pl pr pt pb).entry [bi, ci, pt + i, pl + j] = t.entry [bi, ci, i, j] := by
  unfold Tensor.fpad2
  rw [ht]
  show (Tensor.ofFn [b, c, pt + h + pb, pl + w + pr] (fun idx =>
      match idx with
      | [bi, ci, i, j] =>
        if pt ≤ i ∧ i < pt + h ∧ pl ≤ j ∧ j < pl + w then
          t.entry [bi, ci, i - pt, j - pl]
        else 0
      | _ => 0)).entry [bi, ci, pt + i, pl + j] = t.entry [bi, ci, i, j]
  rw [Tensor.ofFn_entry _ _ _ (Tensor.IdxLT.cons hb (Tensor.IdxLT.cons hc
    (Tensor.IdxLT.cons (by omega) (Tensor.IdxLT.cons (by omega) Tensor.IdxLT.nil))))]
  show (if pt ≤ pt + i ∧ pt + i < pt + h ∧ pl ≤ pl + j ∧ pl + j < pl + w then
      t.entry [bi, ci, pt + i - pt, pl + j - pl] else 0) = t.entry [bi, ci, i, j]
  rw [if_pos (by omega)]
  rw [show pt + i - pt = i from by omega, show pl + j - pl = j from by omega]

/-- Concrete modules and inputs for the closed statements below. -/
def pmX : PatchEmbedModule :=
  ⟨1, 64, fun _ _ _ _ => 0, fun _ => 0, fun _ _ _ _ => 0, fun _ => 0,
   fun _ _ _ _ => 0, fun _ => 0, fun _ _ => 0, fun _ => 0, fun _ _ => 0, fun _ => 0,
   fun _ => 1, fun _ => 0, fun q => q, fun q => q, fun _ => 1, fun q => q⟩

def lgX : LGModule := ⟨8, 8, 7, 32, zeroWeights⟩

def gssX : GSSModule := ⟨8, 8, 4, 32, true, zeroWeights⟩

def gss1X : GSSModule := ⟨64, 8, 1, 0, false, zeroWeights⟩

def lgC5 : LGModule := ⟨64, 8, 7, 32, zeroWeights⟩

def xPatch : Tensor := ⟨[1, 1, 8, 8], fun _ => 0⟩

def x16 : Tensor := ⟨[1, 1, 16, 16], fun n => (n : ℚ)⟩

def xTok : Tensor := ⟨[1, 1, 8], fun _ => 0⟩

def xTok64 : Tensor := ⟨[8, 1, 64], fun _ => 1⟩

def xTok64b : Tensor := ⟨[2, 1, 64], fun _ => 1⟩

def ctxX : Tensor := ⟨[1, 256, 1, 1], fun _ => 0⟩

def xTok2 : Tensor := ⟨[1, 2, 8], fun _ => 0⟩

def ctxX2 : Tensor := ⟨[1, 256, 2, 1], fun _ => 0⟩

/-- C3: `PatchEmbed.forward`, `LocallyGroupedAttnRPEContext.forward` and
`GlobalSubSampleAttnRPEContext.forward` each raise a Python `TypeError` on
every well-shaped input, before producing any output: each calls
`coords_grid` with five positional arguments `(batch, height, width, device,
dtype)` while `coords_grid` (src/core/utils/utils.py, lines 103-110) accepts
exactly four. -/
theorem claim_C3_coords_grid_arity :
    (∀ (m : PatchEmbedModule) (B H W : Nat) (x : Tensor),
      x.shape = [B, m.in_chans, H, W] → 0 < H → 0 < W →
      PatchEmbed.forward m x = .error .typeError) ∧
    (∀ (m : LGModule) (B N C Bc H W : Nat) (x context : Tensor),
      x.shape = [B, N, C] → N = H * W → context.shape = [Bc, 256, H, W] →
      Bc ∣ B → 0 < B → 0 < H → 0 < W → 0 < m.ws → 0 < m.num_heads → m.num_heads ∣ C →
      LocallyGroupedAttnRPEContext.forward m x (H, W) context = .error .typeError) ∧
    (∀ (m : GSSModule) (B N C Bc H W : Nat) (x context : Tensor),
      x.shape = [B, N, C] → N = H * W → context.shape = [Bc, 256, H, W] →
      Bc ∣ B → 0 < B → 0 < H → 0 < W → 0 < C →
      GlobalSubSampleAttnRPEContext.forward m x (H, W) context = .error .typeError) :=
  ⟨fun m B H W x hx hH hW => patchEmbed_forward_typeError m B H W x hx hH hW,
   fun m B N C Bc H W x context hx hN hctx hdvd hB hH hW hws hnh0 hnh =>
     lg_forward_typeError m B N C Bc H W x context hx hN hctx hdvd hB hH hW hws hnh0 hnh,
   fun m B N C Bc H W x context hx hN hctx hdvd hB hH hW hC =>
     gss_forward_typeError m B N C Bc H W x context hx hN hctx hdvd hB hH hW hC⟩

/-- C3 witness: the three forwards on concrete well-shaped inputs. -/
theorem claim_C3_coords_grid_arity_witness :
    PatchEmbed.forward pmX xPatch = .error .typeError ∧
    LocallyGroupedAttnRPEContext.forward lgX xTok (1, 1) ctxX = .error .typeError ∧
    GlobalSubSampleAttnRPEContext.forward gssX xTok (1, 1) ctxX = .error .typeError :=
  ⟨claim_C3_coords_grid_arity.1 pmX 1 8 8 xPatch rfl (by decide) (by decide),
   claim_C3_coords_grid_arity.2.1 lgX 1 1 8 1 1 1 xTok ctxX rfl rfl rfl (by decide)
     (by decide) (by decide) (by decide) (by decide) (by decide) (by decide),
   claim_C3_coords_grid_arity.2.2 gssX 1 1 8 1 1 1 xTok ctxX rfl rfl rfl (by decide)
     (by decide) (by decide) (by decide) (by decide)⟩

/-- C2 counterexample: local-window attention cannot even be constructed with
`ws = 1` (`assert ws != 1` fails at a concrete configuration), and a
`sr_ratio = 1` global-subsampled module raises on every forward call instead
of computing full self-attention. -/
theorem claim_C2_counterexample :
    LocallyGroupedAttnRPEContext.init 64 8 1 0 zeroWeights
      = .error (.assertionError "") ∧
    GlobalSubSampleAttnRPEContext.init 64 8 1 0 zeroWeights = .ok gss1X ∧
    GlobalSubSampleAttnRPEContext.forward gss1X xTok64b (1, 1) ctxX
      = .error .typeError :=
  ⟨rfl, rfl,
   gss_forward_typeError gss1X 2 1 64 1 1 1 xTok64b ctxX rfl rfl rfl (by decide)
     (by decide) (by decide) (by decide) (by decide)⟩

/-- C2 (amended): `LocallyGroupedAttnRPEContext` rejects `ws = 1` at
construction; a `GlobalSubSampleAttnRPEContext` constructed with
`sr_ratio = 1` never creates the `sr_key` attribute, so reading it raises
`AttributeError`; and the global-subsampled forward raises `TypeError` at its
`coords_grid` call on every well-shaped input — neither configuration
computes full unrestricted self-attention. -/
theorem claim_C2_no_ws1_equivalence :
    (∀ (dim num_heads vert_c_dim : Nat) (w : AttnWeights),
      LocallyGroupedAttnRPEContext.init dim num_heads 1 vert_c_dim w
        = .error (.assertionError "")) ∧
    (∀ (dim num_heads vert_c_dim : Nat) (w : AttnWeights) (mo : GSSModule),
      GlobalSubSampleAttnRPEContext.init dim num_heads 1 vert_c_dim w = .ok mo →
      mo.read_sr_key = .error .attributeError) ∧
    (∀ (m : GSSModule) (B N C Bc H W : Nat) (x context : Tensor),
      x.shape = [B, N, C] → N = H * W → context.shape = [Bc, 256, H, W] →
      Bc ∣ B → 0 < B → 0 < H → 0 < W → 0 < C →
      GlobalSubSampleAttnRPEContext.forward m x (H, W) context = .error .typeError) := by
  refine ⟨?_, ?_, ?_⟩
  · intro dim num_heads vert_c_dim w
    unfold LocallyGroupedAttnRPEContext.init
    rw [if_pos rfl]
  · intro dim num_heads vert_c_dim w mo h
    unfold GlobalSubSampleAttnRPEContext.init at h
    by_cases hmod : dim % num_heads = 0
    · rw [if_pos hmod] at h
      cases h
      rfl
    · rw [if_neg hmod] at h
      cases h
  · intro m B N C Bc H W x context hx hN hctx hdvd hB hH hW hC
    exact gss_forward_typeError m B N C Bc H W x context hx hN hctx hdvd hB hH hW hC

/-- C2 amended witness: concrete instances of the three amended facts. -/
theorem claim_C2_no_ws1_equivalence_witness :
    LocallyGroupedAttnRPEContext.init 32 4 1 16 zeroWeights
      = .error (.assertionError "") ∧
    GSSModule.read_sr_key gss1X = .error .attributeError ∧
    GlobalSubSampleAttnRPEContext.forward gssX xTok2 (2, 1) ctxX2 = .error .typeError :=
  ⟨claim_C2_no_ws1_equivalence.1 32 4 16 zeroWeights,
   claim_C2_no_ws1_equivalence.2.1 64 8 0 zeroWeights gss1X rfl,
   claim_C2_no_ws1_equivalence.2.2 gssX 1 2 8 1 2 1 xTok2 ctxX2 rfl rfl rfl (by decide)
     (by decide) (by decide) (by decide) (by decide)⟩

/-- C5: nothing survives the encoder stack as the sources stand — the
vertical (windowed) layer of the stack raises `TypeError` at its
`coords_grid` call; the latent self-attention sub-layer, in contrast, is
shape-stable on the `(batch*H1*W1, tokens, dim)` tensors the stack routes
through it. -/
theorem claim_C5_stack_blocked :
    LocallyGroupedAttnRPEContext.forward lgC5 xTok64 (1, 1) ctxX = .error .typeError ∧
    (∀ (p : SALParams) (x : T3), p.dim = x.d2 →
      (SelfAttentionLayer.forward p x).d0 = x.d0 ∧
      (SelfAttentionLayer.forward p x).d1 = x.d1 ∧
      (SelfAttentionLayer.forward p x).d2 = x.d2) := by
  constructor
  · exact lg_forward_typeError lgC5 8 1 64 1 1 1 xTok64 ctxX rfl rfl rfl (by decide)
      (by decide) (by decide) (by decide) (by decide) (by decide) (by decide)
  · intro p x hdim
    refine ⟨?_, ?_, ?_⟩ <;>
      simp only [SelfAttentionLayer.forward, T3.linear_d0, T3.linear_d1, T3.linear_d2,
        T3.layerNorm_d0, T3.layerNorm_d1, T3.layerNorm_d2, T3.addB_d0, T3.addB_d1,
        T3.addB_d2, T3.gelu_d0, T3.gelu_d1, T3.gelu_d2, MultiHeadAttention_d0,
        MultiHeadAttention_d1, MultiHeadAttention_d2, hdim, Nat.max_self]

def salX : SALParams :=
  ⟨4, 2, fun _ => 1, fun _ => 0, fun _ => 1, fun _ => 0,
   fun _ _ => 0, fun _ => 0, fun _ _ => 0, fun _ => 0, fun _ _ => 0, fun _ => 0,
   fun _ _ => 0, fun _ => 0, fun _ _ => 0, fun _ => 0, fun _ _ => 0, fun _ => 0,
   1, fun q => q, fun q => q, fun q => q⟩

def t3X : T3 := ⟨3, 5, 4, fun _ _ _ => 1⟩

/-- C5 witness: the self-attention sub-layer preserves the concrete shape
`(3, 5, 4)`. -/
theorem claim_C5_stack_blocked_witness :
    LocallyGroupedAttnRPEContext.forward lgC5 xTok64 (1, 1) ctxX = .error .typeError ∧
    (SelfAttentionLayer.forward salX t3X).d0 = 3 ∧
    (SelfAttentionLayer.forward salX t3X).d1 = 5 ∧
    (SelfAttentionLayer.forward salX t3X).d2 = 4 :=
  ⟨claim_C5_stack_blocked.1, claim_C5_stack_blocked.2 salX t3X rfl⟩

/-- C6: the latent cross-attention bottleneck output always has
`cost_latent_token_num` tokens along the sequence axis, whatever the target
token tensor (hence whatever the input spatial resolution). -/
theorem claim_C6_bottleneck_token_count (p : CALParams) (cfg : Config)
    (w : Nat → Nat → ℚ) (tgt : T3) :
    (CrossAttentionLayer.forward p (CostPerceiverEncoder.latentTokens cfg w) tgt).d1
      = cfg.cost_latent_token_num := by
  simp only [CrossAttentionLayer.forward, T3.linear_d1, T3.layerNorm_d1, T3.addB_d1,
    T3.gelu_d1, BroadMultiHeadAttention_d1, latentTokens_d1, Nat.max_self]

/-- C7: as the sources stand `PatchEmbed.forward` raises `TypeError` (see the
`coords_grid` arity); the tokenization stages before the failing call satisfy
the claim: multiples of the patch size get zero pad amounts and a conv grid
of exactly `H/8 x W/8`, and padding extends the input without changing any
in-bounds value. -/
theorem claim_C7_patch_tokenizer :
    PatchEmbed.forward pmX x16 = .error .typeError ∧
    (∀ H W : Nat, 8 ∣ H → 8 ∣ W → (8 - H % 8) % 8 = 0 ∧ (8 - W % 8) % 8 = 0) ∧
    (∀ (B C H W : Nat) (x : Tensor), x.shape = [B, C, H, W] → 8 ∣ H → 8 ∣ W →
      0 < H → 0 < W →
      (PatchEmbed.padStage H W x).shape = [B, C, H, W] ∧
      (∀ m : PatchEmbedModule, C = m.in_chans →
        ∃ y : Tensor, PatchEmbed.proj m (PatchEmbed.padStage H W x) = .ok y ∧
          y.shape = [B, m.embed_dim, H / 8, W / 8])) ∧
    (∀ (B C H W : Nat) (x : Tensor) (bi ci i j : Nat), x.shape = [B, C, H, W] →
      bi < B → ci < C → i < H → j < W →
      (PatchEmbed.padStage H W x).entry [bi, ci, i, j] = x.entry [bi, ci, i, j]) := by
  refine ⟨?_, ?_, ?_, ?_⟩
  · exact patchEmbed_forward_typeError pmX 1 16 16 x16 rfl (by decide) (by decide)
  · intro H W hH hW
    omega
  · intro B C H W x hx hH hW hH0 hW0
    have hpb : (8 - H % 8) % 8 = 0 := by omega
    have hpw : (8 - W % 8) % 8 = 0 := by omega
    have hsh : (PatchEmbed.padStage H W x).shape = [B, C, H, W] := by
      unfold PatchEmbed.padStage
      rw [fpad2_shape 0 ((8 - W % 8) % 8) 0 ((8 - H % 8) % 8) hx, hpb, hpw]
      simp
    refine ⟨hsh, ?_⟩
    intro m hm
    obtain ⟨y, hy, hys⟩ := PatchEmbed.proj_ok m B H W (PatchEmbed.padStage H W x)
      (by rw [hsh, hm]) (by omega) (by omega)
    refine ⟨y, hy, ?_⟩
    rw [hys]
    rw [show ((((H + 2 * 2 - 6) / 2 + 1 + 2 * 2 - 6) / 2 + 1) + 2 * 2 - 6) / 2 + 1 = H / 8
      from by omega]
    rw [show ((((W + 2 * 2 - 6) / 2 + 1 + 2 * 2 - 6) / 2 + 1) + 2 * 2 - 6) / 2 + 1 = W / 8
      from by omega]
  · intro B C H W x bi ci i j hx hb hc hi hj
    have := fpad2_entry 0 ((8 - W % 8) % 8) 0 ((8 - H % 8) % 8) hx bi ci i j hb hc hi hj
    unfold PatchEmbed.padStage
    simpa using this

/-- C7 witness: the concrete `(1, 1, 16, 16)` input — zero pad amounts, a
2x2 conv grid, preserved corner value, and the failing forward. -/
theorem claim_C7_patch_tokenizer_witness :
    PatchEmbed.forward pmX x16 = .error .typeError ∧
    ((8 - 16 % 8) % 8 = 0 ∧ (8 - 16 % 8) % 8 = 0) ∧
    (PatchEmbed.padStage 16 16 x16).shape = [1, 1, 16, 16] ∧
    (∃ y : Tensor, PatchEmbed.proj pmX (PatchEmbed.padStage 16 16 x16) = .ok y ∧
      y.shape = [1, pmX.embed_dim, 16 / 8, 16 / 8]) ∧
    (PatchEmbed.padStage 16 16 x16).entry [0, 0, 15, 15] = x16.entry [0, 0, 15, 15] := by
  obtain ⟨h1, h2, h3, h4⟩ := claim_C7_patch_tokenizer
  obtain ⟨hsh, hproj⟩ := h3 1 1 16 16 x16 rfl (by decide) (by decide) (by decide) (by decide)
  exact ⟨h1, h2 16 16 (by decide) (by decide), hsh, hproj pmX rfl,
    h4 1 1 16 16 x16 0 0 15 15 rfl (by decide) (by decide) (by decide) (by decide)⟩


end FlowFormerSpec
